import Mathlib

/-!
Verification development for the geometry format detection and decoding core
of the csv-geometry-import plugin (src/geometry_parsers.py).

The Python module is shallowly embedded here:
  * Python strings are modelled as `List Char` (`Str`).
  * JSON values produced by `json.loads` are modelled by the inductive `JValue`;
    the JSON, WKT, WKB and XML libraries the code delegates to are abstract
    parameters collected in the structure `Libs`.
  * Python exceptions are modelled by `Except ErrKind`; the format decoders that
    let exceptions escape return `Except ErrKind (Option Geometry)`, and the
    top-level `parse` catches them, mirroring the try/except structure of the
    source.
  * Numeric values are modelled by `Rat`; the only arithmetic the code performs
    on coordinates is addition (TopoJSON delta decoding).
-/

abbrev Str := List Char

/-- Convert a string literal to the character-list representation. -/
def strLit (s : String) : Str := s.toList

/-- The whitespace characters stripped by Python str.strip (ASCII subset). -/
def isPySpace (c : Char) : Bool :=
  c == ' ' || c == '\t' || c == '\n' || c == '\r' || c == '\x0b' || c == '\x0c'

/-- Python str.strip: drop whitespace from both ends. -/
def pyStrip (s : Str) : Str :=
  ((s.dropWhile isPySpace).reverse.dropWhile isPySpace).reverse

/-- Python str.upper, ASCII. -/
def upperStr (s : Str) : Str := s.map Char.toUpper

/-- Python str.lower, ASCII. -/
def lowerStr (s : Str) : Str := s.map Char.toLower

/-- `pfx p s` is true when `p` is a prefix of `s` (Python str.startswith). -/
def pfx : Str → Str → Bool
  | [], _ => true
  | _ :: _, [] => false
  | a :: as, b :: bs => a == b && pfx as bs

/-- `sfx p s` is true when `p` is a suffix of `s` (Python str.endswith). -/
def sfx (p s : Str) : Bool := pfx p.reverse s.reverse

/-- Substring containment (the Python `in` operator on strings). -/
def containsSub : Str → Str → Bool
  | s, needle =>
    match s with
    | [] => pfx needle []
    | _ :: t => pfx needle s || containsSub t needle

/-- Split on a separator character, keeping empty segments (Python str.split(sep)). -/
def splitOnChar (sep : Char) : Str → List Str
  | [] => [[]]
  | c :: t =>
    let r := splitOnChar sep t
    if c == sep then [] :: r
    else match r with
      | [] => [[c]]
      | h :: t2 => (c :: h) :: t2

/-- Split on runs of whitespace, dropping empties (Python str.split()). -/
def splitWs (s : Str) : List Str :=
  let rec go : Str → Str → List Str
    | [], acc => if acc.isEmpty then [] else [acc.reverse]
    | c :: t, acc =>
      if isPySpace c then
        if acc.isEmpty then go t [] else acc.reverse :: go t []
      else go t (c :: acc)
  go s []

/-- Hexadecimal digit test (the character set used in detect_format). -/
def isHexChar (c : Char) : Bool :=
  ('0' ≤ c && c ≤ '9') || ('A' ≤ c && c ≤ 'F') || ('a' ≤ c && c ≤ 'f')

/-- Value of a hexadecimal digit. -/
def hexVal (c : Char) : Nat :=
  if '0' ≤ c && c ≤ '9' then c.toNat - '0'.toNat
  else if 'A' ≤ c && c ≤ 'F' then c.toNat - 'A'.toNat + 10
  else if 'a' ≤ c && c ≤ 'f' then c.toNat - 'a'.toNat + 10
  else 0

/-- Big-endian interpretation of a hex digit string (Python int(s, 16) on valid input). -/
def hexToNat (s : Str) : Nat := s.foldl (fun acc c => acc * 16 + hexVal c) 0

/-- Split a hex string into consecutive 2-character groups. -/
def hexPairs : Str → List Str
  | a :: b :: t => [a, b] :: hexPairs t
  | [a] => [[a]]
  | [] => []

/-- binascii.unhexlify: hex string to bytes; none on odd length or non-hex input. -/
def unhex : Str → Option (List Nat)
  | [] => some []
  | [_] => none
  | a :: b :: t =>
    if isHexChar a && isHexChar b then
      (unhex t).map (fun r => (hexVal a * 16 + hexVal b) :: r)
    else none

/-- Python digit test for the regex class backslash-d (ASCII digits). -/
def isDigitChar (c : Char) : Bool := '0' ≤ c && c ≤ '9'

/-- Python word-character test for the regex class backslash-w (ASCII subset). -/
def isWordChar (c : Char) : Bool :=
  isDigitChar c || ('a' ≤ c && c ≤ 'z') || ('A' ≤ c && c ≤ 'Z') || c == '_'

/-- Natural number denoted by a digit string. -/
def digitsToNat (s : Str) : Nat := s.foldl (fun acc c => acc * 10 + (c.toNat - '0'.toNat)) 0

/-! ## JSON values and Python runtime semantics

`JValue` models the result of `json.loads`. The Python code distinguishes
`int` from `float` via isinstance tests (arc references must be ints), so the
model keeps separate constructors; `jbool` participates in int tests because
Python bool is a subclass of int. Objects keep insertion order, as Python
dicts do. -/

inductive JValue where
  | jnull
  | jbool (b : Bool)
  | jint (n : Int)
  | jnum (q : Rat)
  | jstr (s : Str)
  | jarr (xs : List JValue)
  | jobj (kvs : List (Str × JValue))

mutual

/-- Structural size of a JSON value, used as recursion fuel for the decoders
that recurse into GeometryCollection members. -/
def jsize : JValue → Nat
  | .jnull => 1
  | .jbool _ => 1
  | .jint _ => 1
  | .jnum _ => 1
  | .jstr _ => 1
  | .jarr xs => 1 + jsizeL xs
  | .jobj kvs => 1 + jsizeO kvs

/-- Size of a list of JSON values. -/
def jsizeL : List JValue → Nat
  | [] => 0
  | x :: t => 1 + jsize x + jsizeL t

/-- Size of an object entry list. -/
def jsizeO : List (Str × JValue) → Nat
  | [] => 0
  | (_, v) :: t => 1 + jsize v + jsizeO t

end

/-- Python exception classes relevant to the decoder control flow. -/
inductive ErrKind where
  | typeE   -- TypeError
  | attrE   -- AttributeError
  | indexE  -- IndexError
  | keyE    -- KeyError
  | valueE  -- ValueError
deriving DecidableEq, Repr

namespace JValue

/-- Python truthiness of a JSON value. -/
def truthy : JValue → Bool
  | .jnull => false
  | .jbool b => b
  | .jint n => n != 0
  | .jnum q => q != 0
  | .jstr s => !s.isEmpty
  | .jarr xs => !xs.isEmpty
  | .jobj kvs => !kvs.isEmpty

/-- isinstance(v, int): true for ints and bools (bool subclasses int),
returning the integer value. -/
def asInt : JValue → Option Int
  | .jint n => some n
  | .jbool b => some (if b then 1 else 0)
  | _ => none

/-- isinstance(v, list). -/
def isListJ : JValue → Bool
  | .jarr _ => true
  | _ => false

/-- First-match lookup in an object with a default (dict.get(k, d) on a dict). -/
def lookupD (kvs : List (Str × JValue)) (k : Str) (d : JValue) : JValue :=
  match kvs with
  | [] => d
  | (k2, v) :: t => if k2 == k then v else lookupD t k d

/-- dict.get(k, d): AttributeError when the receiver is not a dict. -/
def pyGetD (v : JValue) (k : Str) (d : JValue) : Except ErrKind JValue :=
  match v with
  | .jobj kvs => .ok (lookupD kvs k d)
  | _ => .error .attrE

/-- dict[k] by string key: KeyError on a missing key, TypeError on non-containers. -/
def pyGetItem (v : JValue) (k : Str) : Except ErrKind JValue :=
  match v with
  | .jobj kvs =>
    match kvs.find? (fun p => p.1 == k) with
    | some p => .ok p.2
    | none => .error .keyE
  | .jarr _ => .error .typeE
  | .jstr _ => .error .typeE
  | _ => .error .typeE

/-- dict.keys() as a list; AttributeError on anything that is not a dict. -/
def pyKeys (v : JValue) : Except ErrKind (List Str) :=
  match v with
  | .jobj kvs => .ok (kvs.map Prod.fst)
  | _ => .error .attrE

/-- Python equality of a JSON value against a string constant. -/
def eqStr (v : JValue) (k : Str) : Bool :=
  match v with
  | .jstr s => s == k
  | _ => false

/-- The `in` operator with a string on the left: key set for dicts, element
equality for lists, substring for strings, TypeError otherwise. -/
def pyContains (v : JValue) (k : Str) : Except ErrKind Bool :=
  match v with
  | .jobj kvs => .ok (kvs.any (fun p => p.1 == k))
  | .jarr xs => .ok (xs.any (fun x => x.eqStr k))
  | .jstr s => .ok (containsSub s k)
  | _ => .error .typeE

/-- len(v): defined for strings, lists and dicts; TypeError otherwise. -/
def pyLen (v : JValue) : Except ErrKind Nat :=
  match v with
  | .jstr s => .ok s.length
  | .jarr xs => .ok xs.length
  | .jobj kvs => .ok kvs.length
  | _ => .error .typeE

/-- v[i] with an integer index: negative indices count from the end;
IndexError when out of range, KeyError for dicts, TypeError otherwise. -/
def pyIndex (v : JValue) (i : Int) : Except ErrKind JValue :=
  match v with
  | .jarr xs =>
    let j : Int := if i < 0 then i + xs.length else i
    if 0 ≤ j ∧ j < xs.length then .ok (xs.getD j.toNat .jnull) else .error .indexE
  | .jstr s =>
    let j : Int := if i < 0 then i + s.length else i
    if 0 ≤ j ∧ j < s.length then .ok (.jstr [s.getD j.toNat ' ']) else .error .indexE
  | .jobj _ => .error .keyE
  | _ => .error .typeE

/-- The copying slice v[:]; TypeError for non-sequences. -/
def pySliceCopy (v : JValue) : Except ErrKind JValue :=
  match v with
  | .jarr xs => .ok (.jarr xs)
  | .jstr s => .ok (.jstr s)
  | _ => .error .typeE

/-- Iteration: list elements, string characters (as 1-char strings), dict keys;
TypeError for non-iterables. -/
def pyIter (v : JValue) : Except ErrKind (List JValue) :=
  match v with
  | .jarr xs => .ok xs
  | .jstr s => .ok (s.map (fun c => .jstr [c]))
  | .jobj kvs => .ok (kvs.map (fun p => .jstr p.1))
  | _ => .error .typeE

/-- Numeric coercion performed by QgsPointXY construction and by the `+=`
accumulation in arc decoding: ints, floats and bools are numbers. -/
def toQ (v : JValue) : Except ErrKind Rat :=
  match v with
  | .jint n => .ok n
  | .jnum q => .ok q
  | .jbool b => .ok (if b then 1 else 0)
  | _ => .error .typeE

end JValue

/-! ## Geometry values, format tags and external libraries -/

/-- A geometry produced by the external WKT/WKB reader (QgsGeometry.fromWkt /
fromWkb). The decoder only ever inspects its null and emptiness flags; `payload`
keeps distinct library results distinguishable. -/
structure LibGeom where
  nullFlag : Bool
  emptyFlag : Bool
  payload : Nat
deriving DecidableEq, Repr

/-- Canonical geometry output (QgsGeometry values the module constructs).
`union` models QgsGeometry.combine, the geometric union used for collections. -/
inductive Geometry where
  | point (x y : Rat)
  | multipoint (ps : List (Rat × Rat))
  | polyline (ps : List (Rat × Rat))
  | multipolyline (ls : List (List (Rat × Rat)))
  | polygon (rs : List (List (Rat × Rat)))
  | multipolygon (ps : List (List (List (Rat × Rat))))
  | lib (g : LibGeom)
  | union (a b : Geometry)
deriving DecidableEq, Repr

/-- Non-null and non-empty: a point is never empty; the aggregate constructors
are non-empty when they hold at least one part; a library geometry is good when
both its flags are clear; a geometric union is non-empty when either operand is. -/
def Geometry.ok : Geometry → Bool
  | .point _ _ => true
  | .multipoint ps => !ps.isEmpty
  | .polyline ps => !ps.isEmpty
  | .multipolyline ls => !ls.isEmpty
  | .polygon rs => !rs.isEmpty
  | .multipolygon ps => !ps.isEmpty
  | .lib g => !g.nullFlag && !g.emptyFlag
  | .union a b => a.ok || b.ok

/-- The GeometryFormat tags of the source. -/
inductive Fmt where
  | WKT | WKB | EWKT | EWKB | GEOJSON | JSON | KML | EARTH_ENGINE | TOPOJSON | XY | UNKNOWN
deriving DecidableEq, Repr

/-- XML element trees as produced by xml.etree.ElementTree.fromstring:
a tag, the text before the first child, and the child elements. -/
inductive XmlTree where
  | node (tag : Str) (text : Option Str) (children : List XmlTree)

/-- The external libraries the module delegates to. `jsonParse` is json.loads
(none = JSONDecodeError), `wktRead` is QgsGeometry.fromWkt, `wkbRead` is
QgsGeometry.fromWkb on the unhexlified bytes, `xmlParse` is
ElementTree.fromstring (none = ParseError), `floatRead` is float(str)
(none = ValueError). -/
structure Libs where
  jsonParse : Str → Option JValue
  wktRead : Str → LibGeom
  wkbRead : List Nat → LibGeom
  xmlParse : Str → Option XmlTree
  floatRead : Str → Option Rat

/-- A library stub whose parsers always fail and whose readers return null
geometries; used for samples that involve no library at all. -/
def noLibs : Libs where
  jsonParse := fun _ => none
  wktRead := fun _ => ⟨true, true, 0⟩
  wkbRead := fun _ => ⟨true, true, 0⟩
  xmlParse := fun _ => none
  floatRead := fun _ => none

deriving instance DecidableEq for Except

/-! ## detect_format -/

/-- The WKT geometry-type keyword list of detect_format, in source order. -/
def wktTypes : List Str :=
  [strLit "POINT", strLit "LINESTRING", strLit "POLYGON", strLit "MULTIPOINT",
   strLit "MULTILINESTRING", strLit "MULTIPOLYGON", strLit "GEOMETRYCOLLECTION",
   strLit "CIRCULARSTRING", strLit "COMPOUNDCURVE", strLit "CURVEPOLYGON",
   strLit "MULTICURVE", strLit "MULTISURFACE", strLit "TRIANGLE", strLit "TIN",
   strLit "POLYHEDRALSURFACE"]

/-- One keyword hit of the WKT detection loop: the upper-cased sample starts
with the keyword and the rest is empty or begins with space, open paren, Z or M. -/
def kwHit (u kw : Str) : Bool :=
  pfx kw u &&
    (let rest := u.drop kw.length
     rest.isEmpty || (match rest.head? with
       | some c => c == ' ' || c == '(' || c == 'Z' || c == 'M'
       | none => true))

/-- The WKT step of detect_format: some keyword matches with a valid follow character. -/
def wktAny (u : Str) : Bool := wktTypes.any (fun kw => kwHit u kw)

/-- The JSON detection step: on a successful parse of a dict, type+coordinates
or type+geometries gives GeoJSON, arcs or objects gives TopoJSON; anything else
falls through. -/
def jsonStep (L : Libs) (s : Str) : Option Fmt :=
  match L.jsonParse s with
  | some (.jobj kvs) =>
    if kvs.any (fun p => p.1 == strLit "type")
        && (kvs.any (fun p => p.1 == strLit "coordinates")
            || kvs.any (fun p => p.1 == strLit "geometries")) then some .GEOJSON
    else if kvs.any (fun p => p.1 == strLit "arcs")
        || kvs.any (fun p => p.1 == strLit "objects") then some .TOPOJSON
    else none
  | _ => none

/-- KML element markers searched for in the lower-cased sample. -/
def kmlElems : List Str :=
  [strLit "<point", strLit "<linestring", strLit "<polygon",
   strLit "<multigeometry", strLit "<linearring", strLit "<coordinates"]

/-- The packed geometry-type word read by the hex detection step: the 8 hex
characters after the first byte pair, byte-swapped when that first pair is 01
(lower-cased), read directly otherwise. -/
def hexTypeInt (s : Str) : Nat :=
  if lowerStr (s.take 2) == strLit "01" then
    hexToNat ((hexPairs ((s.drop 2).take 8)).reverse.flatten)
  else hexToNat ((s.drop 2).take 8)

/-- The hex-string step of detect_format, reached on an even-length all-hex
sample: with at least 10 hex characters the packed type word is tested for the
SRID flag 0x20000000; shorter samples are WKB without the test. -/
def hexStep (s : Str) : Fmt :=
  if 10 ≤ s.length then
    if Nat.land (hexTypeInt s) 0x20000000 ≠ 0 then .EWKB else .WKB
  else .WKB

/-- GeometryParser.detect_format: auto-detect a geometry format from a sample. -/
def detect_format (L : Libs) (sample : Str) : Fmt :=
  let s := pyStrip sample
  if s.isEmpty then .UNKNOWN
  else if pfx (strLit "SRID=") (upperStr s) then .EWKT
  else if wktAny (upperStr s) then .WKT
  else
    match (if s.head? == some '\x7b' then jsonStep L s else none) with
    | some f => f
    | none =>
      if (s.head? == some '<' || containsSub (lowerStr s) (strLit "<coordinates"))
          && kmlElems.any (fun e => containsSub (lowerStr s) e) then .KML
      else if pfx (strLit "ee.Geometry") s then .EARTH_ENGINE
      else if 2 ≤ s.length && s.length % 2 == 0 && s.all isHexChar then hexStep s
      else .UNKNOWN

/-! ## Simple decoders: WKT, WKB, EWKT, EWKB, XY -/

/-- GeometryParser._parse_wkt: delegate to the library WKT reader and reject
null or empty results. -/
def parse_wkt (L : Libs) (v : Str) : Option Geometry :=
  let g := L.wktRead v
  if g.nullFlag || g.emptyFlag then none else some (.lib g)

/-- GeometryParser._parse_wkb: unhexlify then hand to the library WKB reader;
none on odd-length or non-hex input and on null or empty results. -/
def parse_wkb (L : Libs) (v : Str) : Option Geometry :=
  match unhex v with
  | none => none
  | some bytes =>
    let g := L.wkbRead bytes
    if g.nullFlag || g.emptyFlag then none else some (.lib g)

/-- GeometryParser._parse_ewkb: byte-level handling identical to _parse_wkb. -/
def parse_ewkb (L : Libs) (v : Str) : Option Geometry := parse_wkb L v

/-- The anchored regex match SRID=(digits);(rest) of _parse_ewkt, IGNORECASE on
the SRID prefix; the second group is the greedy dot-plus, i.e. the non-empty
remainder of the first line after the semicolon. Returns the digit group and
the WKT group. -/
def ewktMatch (v : Str) : Option (Str × Str) :=
  if lowerStr (v.take 5) == strLit "srid=" then
    let rest := v.drop 5
    let digits := rest.takeWhile isDigitChar
    if digits.isEmpty then none
    else
      match rest.drop digits.length with
      | ';' :: tail =>
        let wkt := tail.takeWhile (fun c => c != '\n')
        if wkt.isEmpty then none else some (digits, wkt)
      | _ => none
  else none

/-- GeometryParser._parse_ewkt: on a regex match the integer SRID is bound to a
local and the rest is decoded as WKT; the function returns only the geometry
(the extracted SRID does not appear in the returned value). -/
def parse_ewkt (L : Libs) (v : Str) : Option Geometry :=
  match ewktMatch v with
  | some (_digits, wktPart) => parse_wkt L wktPart
  | none => none

/-- GeometryParser._parse_xy: both coordinates must be present. -/
def parse_xy (x y : Option Rat) : Option Geometry :=
  match x, y with
  | some a, some b => some (.point a b)
  | _, _ => none

/-! ## Shared coordinate-list filtering

The comprehension `[QgsPointXY(c[0], c[1]) for c in coords if len(c) >= 2]`
appears in the GeoJSON, Earth Engine and TopoJSON decoders. Elements with
fewer than 2 components are dropped; `len` raises TypeError on non-sized
elements and the QgsPointXY construction raises TypeError on non-numeric
components. -/
def pointsOf (coords : JValue) : Except ErrKind (List (Rat × Rat)) := do
  let xs ← coords.pyIter
  xs.foldlM (fun acc c => do
    let n ← c.pyLen
    if 2 ≤ n then
      let a ← JValue.toQ (← c.pyIndex 0)
      let b ← JValue.toQ (← c.pyIndex 1)
      pure (acc ++ [(a, b)])
    else pure acc) []

/-! The per-kind decoding bodies below appear, textually duplicated, in
_parse_geojson, _parse_earth_engine and _resolve_topojson_geometry; they are
shared here as named functions. -/

/-- The point body: at least 2 components required. -/
def geoPointB (coords : JValue) : Except ErrKind (Option Geometry) := do
  let n ← coords.pyLen
  if 2 ≤ n then
    let a ← JValue.toQ (← coords.pyIndex 0)
    let b ← JValue.toQ (← coords.pyIndex 1)
    pure (some (.point a b))
  else pure none

/-- The multipoint body: surviving points must be non-empty. -/
def geoMultipointB (coords : JValue) : Except ErrKind (Option Geometry) := do
  let pts ← pointsOf coords
  pure (if pts.isEmpty then none else some (.multipoint pts))

/-- The linestring body: at least 2 surviving points. -/
def geoLineB (coords : JValue) : Except ErrKind (Option Geometry) := do
  let pts ← pointsOf coords
  pure (if 2 ≤ pts.length then some (.polyline pts) else none)

/-- The linearring body of the Earth Engine decoder: at least 3 surviving
points give a single-ring polygon. -/
def geoRingB (coords : JValue) : Except ErrKind (Option Geometry) := do
  let pts ← pointsOf coords
  pure (if 3 ≤ pts.length then some (.polygon [pts]) else none)

/-- The multilinestring body: lines with fewer than 2 surviving points are
dropped; at least one line must survive. -/
def geoMultilineB (coords : JValue) : Except ErrKind (Option Geometry) := do
  let ls ← coords.pyIter
  let lines ← ls.foldlM (fun acc line => do
      let pts ← pointsOf line
      pure (if 2 ≤ pts.length then acc ++ [pts] else acc)) []
  pure (if lines.isEmpty then none else some (.multipolyline lines))

/-- The surviving rings of a ring list: rings with fewer than 3 surviving
points are dropped. -/
def ringsOfB (coords : JValue) : Except ErrKind (List (List (Rat × Rat))) := do
  let rs ← coords.pyIter
  rs.foldlM (fun acc ring => do
      let pts ← pointsOf ring
      pure (if 3 ≤ pts.length then acc ++ [pts] else acc)) []

/-- The polygon body: at least one surviving ring. -/
def geoPolygonB (coords : JValue) : Except ErrKind (Option Geometry) := do
  let rings ← ringsOfB coords
  pure (if rings.isEmpty then none else some (.polygon rings))

/-- The multipolygon body: polygons whose rings all fail the filter are
dropped; at least one polygon must survive. -/
def geoMultipolygonB (coords : JValue) : Except ErrKind (Option Geometry) := do
  let ps ← coords.pyIter
  let polys ← ps.foldlM (fun acc poly => do
      let rings ← ringsOfB poly
      pure (if rings.isEmpty then acc else acc ++ [rings])) []
  pure (if polys.isEmpty then none else some (.multipolygon polys))

/-! ## GeoJSON decoder

GeometryParser._parse_geojson, on the already-parsed JSON value. The Python
recursion for GeometryCollection members re-serializes each member with
json.dumps and re-parses it with json.loads, an identity round trip, so the
model recurses on the member value directly. The recursion is driven by a fuel
argument equal to the sizeOf of the value; every recursive call is on a value
of strictly smaller size, so the fuel-exhausted branch is unreachable. -/

def geojsonCoreF : Nat → JValue → Except ErrKind (Option Geometry)
  | 0, _ => .error .typeE
  | n + 1, v =>
    match v with
    | .jobj kvs =>
      -- Feature wrapper: descend into the geometry member first.
      let g1 := if (JValue.lookupD kvs (strLit "type") .jnull).eqStr (strLit "Feature")
                then JValue.lookupD kvs (strLit "geometry") (.jobj [])
                else .jobj kvs
      match g1 with
      | .jobj kvs2 =>
        match JValue.lookupD kvs2 (strLit "type") (.jstr []) with
        | .jstr ty =>
          let gt := lowerStr ty
          let coords := JValue.lookupD kvs2 (strLit "coordinates") (.jarr [])
          if gt == strLit "point" then geoPointB coords
          else if gt == strLit "multipoint" then geoMultipointB coords
          else if gt == strLit "linestring" then geoLineB coords
          else if gt == strLit "multilinestring" then geoMultilineB coords
          else if gt == strLit "polygon" then geoPolygonB coords
          else if gt == strLit "multipolygon" then geoMultipolygonB coords
          else if gt == strLit "geometrycollection" then do
            let geoms := JValue.lookupD kvs2 (strLit "geometries") (.jarr [])
            let members ← geoms.pyIter
            let results ← members.mapM (fun g => geojsonCoreF n g)
            match results.filterMap id with
            | [] => pure none
            | g0 :: rest => pure (some (rest.foldl Geometry.union g0))
          else pure none
        | _ => .error .attrE
      | _ => .error .attrE
    | _ => .error .attrE

/-- _parse_geojson applied to an already-parsed JSON value. -/
def geojsonCore (v : JValue) : Except ErrKind (Option Geometry) :=
  geojsonCoreF (jsize v) v

/-- GeometryParser._parse_geojson on the value string: json.loads errors
(JSONDecodeError) are caught locally and yield None; all other exceptions
escape to the caller. -/
def geojsonDecode (L : Libs) (s : Str) : Except ErrKind (Option Geometry) :=
  match L.jsonParse s with
  | none => .ok none
  | some j => geojsonCore j

/-! ## KML decoder -/

namespace XmlTree

/-- Element tag. -/
def tag : XmlTree → Str
  | .node t _ _ => t

/-- Element text. -/
def text : XmlTree → Option Str
  | .node _ x _ => x

/-- Direct children. -/
def children : XmlTree → List XmlTree
  | .node _ _ cs => cs

mutual

/-- ElementTree iter(): the element itself followed by all descendants in
document order. -/
def iterTree : XmlTree → List XmlTree
  | .node t x cs => .node t x cs :: iterTreeL cs

/-- iter() over a child list. -/
def iterTreeL : List XmlTree → List XmlTree
  | [] => []
  | c :: t => iterTree c ++ iterTreeL t

end

end XmlTree

/-- The test applied to element tags when searching for the coordinates
element: lower-cased tag ends with coordinates, or the tag is exactly it. -/
def isCoordTag (t : Str) : Bool :=
  sfx (strLit "coordinates") (lowerStr t) || t == strLit "coordinates"

/-- The parent-tag scan of _parse_kml: for every element, the inner loop over
its children breaks on the first coordinates child, overwriting parent_tag, so
the result is the lower-cased tag of the last element (in iter order) that has
a direct coordinates child, or the empty string. -/
def lastParentTag (root : XmlTree) : Str :=
  match (root.iterTree.filter (fun e => e.children.any (fun c => isCoordTag c.tag))).getLast? with
  | some e => lowerStr e.tag
  | none => []

/-- Strip the namespace prefix: everything between the first closing brace and
the following one (str.split on the closing brace, second segment). -/
def nsStrip (t : Str) : Str :=
  if containsSub t ['\x7d'] then
    match splitOnChar '\x7d' t with
    | _ :: second :: _ => second
    | _ => []
  else t

/-- The synthetic root element wrapper of _parse_kml. -/
def kmlOpenTag : Str := strLit "<root xmlns:gx=\"http://www.google.com/kml/ext/2.2\">"

/-- Closing tag of the synthetic root element. -/
def kmlCloseTag : Str := strLit "</root>"

/-- GeometryParser._parse_kml. XML parse failure is caught and yields None;
float failures on coordinate fields skip the field (ValueError handler with
continue); all other paths are pure. -/
def parse_kml (L : Libs) (v : Str) : Option Geometry :=
  let wrapped :=
    if !pfx (strLit "<?xml") (pyStrip v) && !pfx (strLit "<kml") (lowerStr (pyStrip v)) then
      kmlOpenTag ++ v ++ kmlCloseTag
    else v
  match L.xmlParse wrapped with
  | none => none
  | some root =>
    match root.iterTree.find? (fun e => isCoordTag e.tag) with
    | none => none
    | some ce =>
      match ce.text with
      | none => none
      | some txt =>
        let points := (splitWs (pyStrip txt)).foldl (fun acc pair =>
          let parts := splitOnChar ',' pair
          if 2 ≤ parts.length then
            match L.floatRead (parts.getD 0 []), L.floatRead (parts.getD 1 []) with
            | some lon, some lat => acc ++ [(lon, lat)]
            | _, _ => acc
          else acc) []
        if points.isEmpty then none
        else
          let pt := nsStrip (lastParentTag root)
          let p0 := points.headD (0, 0)
          if containsSub pt (strLit "point") && 1 ≤ points.length then
            some (.point p0.1 p0.2)
          else if containsSub pt (strLit "linestring") && 2 ≤ points.length then
            some (.polyline points)
          else if (containsSub pt (strLit "polygon") || containsSub pt (strLit "linearring"))
              && 3 ≤ points.length then
            some (.polygon [points])
          else if points.length == 1 then
            some (.point p0.1 p0.2)
          else if 3 ≤ points.length && points.head? == points.getLast? then
            some (.polygon [points])
          else if 2 ≤ points.length then
            some (.polyline points)
          else none

/-! ## Earth Engine decoder -/

/-- The greedy bracketed-argument capture of the Earth Engine regex: given the
text after the opening whitespace (which must start with an opening square
bracket), the largest index j holding a closing square bracket with at least
one character between the brackets such that only whitespace stands between it
and a closing parenthesis. -/
def findBracketEnd (r : Str) : Option Nat :=
  (List.range r.length).reverse.find? (fun j =>
    r.getD j ' ' == ']' && 2 ≤ j &&
    ((r.drop (j + 1)).dropWhile isPySpace).head? == some ')')

/-- The regex match of _parse_earth_engine: ee.Geometry.(word)\s*(\s*(bracketed
array)\s*), matched as a prefix of the stripped value (re.match does not anchor
the end). Returns the kind word and the bracketed capture. -/
def eeMatch (v : Str) : Option (Str × Str) :=
  let s := pyStrip v
  if pfx (strLit "ee.Geometry.") s then
    let r1 := s.drop 12
    let word := r1.takeWhile isWordChar
    if word.isEmpty then none
    else
      match (r1.drop word.length).dropWhile isPySpace with
      | '(' :: r3 =>
        let r4 := r3.dropWhile isPySpace
        if r4.head? == some '[' then
          match findBracketEnd r4 with
          | some j => some (word, r4.take (j + 1))
          | none => none
        else none
      | _ => none
  else none

/-- The re.search for a brace-delimited substring in the Earth Engine fallback:
the first position holding an opening brace from which at least one
non-closing-brace character is followed by a closing brace. -/
def braceSearch : Str → Option Str
  | [] => none
  | c :: t =>
    if c == '\x7b' then
      let inner := t.takeWhile (fun d => d != '\x7d')
      if inner.length < t.length && !inner.isEmpty then
        some ('\x7b' :: inner ++ ['\x7d'])
      else braceSearch t
    else braceSearch t

/-- The rectangle/bbox branch of _parse_earth_engine: at least 4 entries are
required, the first four are read as west, south, east, north and a closed
5-point ring is synthesized. -/
def eeRect (coords : JValue) : Except ErrKind (Option Geometry) := do
  let n ← coords.pyLen
  if 4 ≤ n then
    let w ← JValue.toQ (← coords.pyIndex 0)
    let s ← JValue.toQ (← coords.pyIndex 1)
    let e ← JValue.toQ (← coords.pyIndex 2)
    let no ← JValue.toQ (← coords.pyIndex 3)
    pure (some (.polygon [[(w, s), (e, s), (e, no), (w, no), (w, s)]]))
  else pure none

/-- Dispatch on the lower-cased Earth Engine kind word. -/
def eeDispatch (gt : Str) (coords : JValue) : Except ErrKind (Option Geometry) :=
  if gt == strLit "point" then geoPointB coords
  else if gt == strLit "multipoint" then geoMultipointB coords
  else if gt == strLit "linestring" then geoLineB coords
  else if gt == strLit "linearring" then geoRingB coords
  else if gt == strLit "polygon" then
    if coords.truthy then do
      let c0 ← coords.pyIndex 0
      if c0.isListJ then
        if c0.truthy then do
          let c00 ← c0.pyIndex 0
          if c00.isListJ then geoPolygonB coords
          else geoRingB coords
        else geoRingB coords
      else pure none
    else pure none
  else if gt == strLit "multipolygon" then geoMultipolygonB coords
  else if gt == strLit "rectangle" || gt == strLit "bbox" then eeRect coords
  else pure none

/-- The try-block body of _parse_earth_engine. A json.loads failure on the
captured argument is a JSONDecodeError, caught by the local handler. -/
def eeTry (L : Libs) (v : Str) : Except ErrKind (Option Geometry) :=
  match eeMatch v with
  | some (word, cap) =>
    match L.jsonParse cap with
    | none => .ok none
    | some coords => eeDispatch (lowerStr word) coords
  | none =>
    if containsSub v ['\x7b'] && containsSub v (strLit "coordinates") then
      match braceSearch v with
      | some sub => geojsonDecode L sub
      | none => .ok none
    else .ok none

/-- GeometryParser._parse_earth_engine: the local handler catches
JSONDecodeError, ValueError and IndexError and yields None; other exceptions
escape. -/
def parse_earth_engine (L : Libs) (v : Str) : Except ErrKind (Option Geometry) :=
  match eeTry L v with
  | .error k => if k == .valueE || k == .indexE then .ok none else .error k
  | .ok r => .ok r

/-! ## TopoJSON decoder and arc resolution -/

/-- Rational addition written through mkRat so that the kernel can evaluate it
on concrete inputs; `qadd_eq_add` identifies it with ordinary addition. -/
def qadd (a b : Rat) : Rat := mkRat (a.num * b.den + b.num * a.den) (a.den * b.den)

/-- The delta-decoding loop of _resolve_arcs: the running sums start at (0,0)
and points with fewer than 2 components are skipped; len raises on non-sized
entries and the accumulation raises on non-numeric components. -/
def decodeDeltaLoop : List JValue → Rat → Rat → Except ErrKind (List (Rat × Rat))
  | [], _, _ => .ok []
  | p :: rest, x, y => do
    let n ← p.pyLen
    if 2 ≤ n then
      let a ← JValue.toQ (← p.pyIndex 0)
      let b ← JValue.toQ (← p.pyIndex 1)
      let tl ← decodeDeltaLoop rest (qadd x a) (qadd y b)
      pure ((qadd x a, qadd y b) :: tl)
    else decodeDeltaLoop rest x y

/-- One iteration of the inner loop of _resolve_arcs: non-int references are
skipped; a non-negative int selects that arc, a negative one r selects the arc
at the bitwise complement of r (-r-1), reversing the decoded points after
decoding; out-of-range indices are skipped; a duplicated junction point
between the accumulated points and the next decoded arc is dropped once. -/
def resolveStep (arcs : JValue) (coords : List (Rat × Rat)) (ref : JValue) :
    Except ErrKind (List (Rat × Rat)) :=
  match ref.asInt with
  | none => pure coords
  | some r => do
    let idx : Int := if 0 ≤ r then r else -r - 1
    let n ← arcs.pyLen
    if 0 ≤ idx ∧ idx < (n : Int) then do
      let arcEl ← arcs.pyIndex idx
      let arcCopy ← arcEl.pySliceCopy
      let pts ← arcCopy.pyIter
      let decoded0 ← decodeDeltaLoop pts 0 0
      let decoded1 := if r < 0 then decoded0.reverse else decoded0
      let decoded2 :=
        if !coords.isEmpty && !decoded1.isEmpty && coords.getLast? == decoded1.head?
        then decoded1.tail else decoded1
      pure (coords ++ decoded2)
    else pure coords

/-- The inner loop of _resolve_arcs over the references of one line or ring. -/
def resolveGroup (arcs : JValue) (refs : List JValue) : Except ErrKind (List (Rat × Rat)) :=
  refs.foldlM (resolveStep arcs) []

/-- GeometryParser._resolve_arcs: each reference group that is a bare int is
wrapped into a singleton list, non-list groups are skipped, and each group
contributing at least one coordinate is appended to the result. -/
def resolve_arcs (arc_refs arcs : JValue) : Except ErrKind (List (List (Rat × Rat))) := do
  let groups ← arc_refs.pyIter
  groups.foldlM (fun resolved g =>
    match g.asInt with
    | some nn => do
      let coords ← resolveGroup arcs [JValue.jint nn]
      pure (if coords.isEmpty then resolved else resolved ++ [coords])
    | none =>
      match g with
      | .jarr xs => do
        let coords ← resolveGroup arcs xs
        pure (if coords.isEmpty then resolved else resolved ++ [coords])
      | _ => pure resolved) []

/-- The arc-based branches of _resolve_topojson_geometry: the object arc index
structure is resolved through the arc table, and the survival filters are
applied at the level matching the geometry kind. The per-point comprehensions
of the source are the identity here because resolved coordinates are always
2-component numeric pairs by construction of _resolve_arcs; only the length
filters remain. The multipolygon branch re-resolves each member of the index
structure separately but is guarded by the non-emptiness of the whole-structure
resolution. -/
def topoArcB (gt : Str) (arcIdx arcs : JValue) : Except ErrKind (Option Geometry) := do
  let resolved ← resolve_arcs arcIdx arcs
  if gt == strLit "linestring" && !resolved.isEmpty then
    pure (if 2 ≤ (resolved.headD []).length then some (.polyline (resolved.headD [])) else none)
  else if gt == strLit "multilinestring" && !resolved.isEmpty then
    pure (if (resolved.filter (fun l => 2 ≤ l.length)).isEmpty then none
          else some (.multipolyline (resolved.filter (fun l => 2 ≤ l.length))))
  else if gt == strLit "polygon" && !resolved.isEmpty then
    pure (if (resolved.filter (fun r => 3 ≤ r.length)).isEmpty then none
          else some (.polygon (resolved.filter (fun r => 3 ≤ r.length))))
  else if gt == strLit "multipolygon" && !resolved.isEmpty then do
    let groups ← arcIdx.pyIter
    let polys ← groups.foldlM (fun acc pa => do
        let pcs ← resolve_arcs pa arcs
        let rings := pcs.filter (fun r => 3 ≤ r.length)
        pure (if rings.isEmpty then acc else acc ++ [rings])) []
    pure (if polys.isEmpty then none else some (.multipolygon polys))
  else pure none

/-- GeometryParser._resolve_topojson_geometry, fuel-indexed like the GeoJSON
decoder (the only recursion is into GeometryCollection members). The arc-based
branches rebuild point lists from the resolved coordinates; since resolved
coordinates are always 2-component numeric pairs by construction, the
per-point comprehension there is the identity and only the length filters
remain. -/
def resolveTopoF : Nat → JValue → JValue → Except ErrKind (Option Geometry)
  | 0, _, _ => .error .typeE
  | n + 1, obj, arcs =>
    match obj with
    | .jobj kvs =>
      match JValue.lookupD kvs (strLit "type") (.jstr []) with
      | .jstr ty =>
        let gt := lowerStr ty
        if gt == strLit "point" then
          geoPointB (JValue.lookupD kvs (strLit "coordinates") (.jarr []))
        else if gt == strLit "multipoint" then
          geoMultipointB (JValue.lookupD kvs (strLit "coordinates") (.jarr []))
        else if gt == strLit "linestring" || gt == strLit "multilinestring"
            || gt == strLit "polygon" || gt == strLit "multipolygon" then
          topoArcB gt (JValue.lookupD kvs (strLit "arcs") (.jarr [])) arcs
        else if gt == strLit "geometrycollection" then do
          let geoms := JValue.lookupD kvs (strLit "geometries") (.jarr [])
          let members ← geoms.pyIter
          let results ← members.mapM (fun g => resolveTopoF n g arcs)
          match results.filterMap id with
          | [] => pure none
          | g0 :: rest => pure (some (rest.foldl Geometry.union g0))
        else pure none
      | _ => .error .attrE
    | _ => .error .attrE

/-- _resolve_topojson_geometry with the fuel instantiated. -/
def resolve_topojson_geometry (obj arcs : JValue) : Except ErrKind (Option Geometry) :=
  resolveTopoF (jsize obj) obj arcs

/-- The try-block body of _parse_topojson. A document that already carries
type and coordinates keys is handed to the GeoJSON decoder on the same string;
otherwise the first entry of objects is resolved against the arc table. -/
def topoTry (L : Libs) (v : Str) : Except ErrKind (Option Geometry) :=
  match L.jsonParse v with
  | none => .ok none
  | some topo => do
    let hasT ← topo.pyContains (strLit "type")
    let hasC ← (if hasT then topo.pyContains (strLit "coordinates") else pure false)
    if hasT && hasC then geojsonDecode L v
    else do
      let arcs ← topo.pyGetD (strLit "arcs") (.jarr [])
      let objects ← topo.pyGetD (strLit "objects") (.jobj [])
      if !objects.truthy then pure none
      else do
        let keys ← objects.pyKeys
        match keys with
        | [] => .error .indexE
        | k :: _ => do
          let firstObj ← objects.pyGetItem k
          resolve_topojson_geometry firstObj arcs

/-- GeometryParser._parse_topojson: json.loads failures and ValueError are
caught locally and yield None; other exceptions escape. -/
def parse_topojson (L : Libs) (v : Str) : Except ErrKind (Option Geometry) :=
  match topoTry L v with
  | .error k => if k == .valueE then .ok none else .error k
  | .ok r => .ok r

/-! ## Top-level dispatch -/

/-- The try-block dispatch of GeometryParser.parse on the stripped value. XY
never reaches it (handled before the try); an unknown tag logs and returns
None. -/
def parseBody (L : Libs) (v : Str) (fmt : Fmt) : Except ErrKind (Option Geometry) :=
  match fmt with
  | .WKT => .ok (parse_wkt L v)
  | .WKB => .ok (parse_wkb L v)
  | .EWKT => .ok (parse_ewkt L v)
  | .EWKB => .ok (parse_ewkb L v)
  | .GEOJSON => geojsonDecode L v
  | .JSON => geojsonDecode L v
  | .KML => .ok (parse_kml L v)
  | .EARTH_ENGINE => parse_earth_engine L v
  | .TOPOJSON => parse_topojson L v
  | .XY => .ok none
  | .UNKNOWN => .ok none

/-- GeometryParser.parse: the XY format is served from the x/y arguments
before any string handling; otherwise the value is stripped, an empty result
yields None, and the dispatch runs inside a catch-all exception handler that
converts every escaped exception into None. The srid parameter is accepted
and never consulted. -/
def parse (L : Libs) (value : Str) (fmt : Fmt) (srid : Int) (x y : Option Rat) :
    Option Geometry :=
  if fmt = .XY then parse_xy x y
  else
    let v := pyStrip value
    if v.isEmpty then none
    else
      match parseBody L v fmt with
      | .ok r => r
      | .error _ => none

/-! ## Concrete documents and library stubs used by the theorems -/

/-- The arc table of the C1 document: one arc whose deltas decode to the three
points (0,0), (1,0), (1,1). -/
def topoArcsC1 : JValue :=
  .jarr [.jarr [.jarr [.jint 0, .jint 0], .jarr [.jint 1, .jint 0], .jarr [.jint 0, .jint 1]]]

/-- A well-formed TopoJSON document whose first object is a MultiPolygon with
one polygon of one ring built from arc 0. Corresponds to the document text
  topology with objects o: type MultiPolygon, arcs [[[0]]],
  and arc table [[[0,0],[1,0],[0,1]]]. -/
def topoDocC1 : JValue :=
  .jobj [
    (strLit "type", .jstr (strLit "Topology")),
    (strLit "objects", .jobj [
      (strLit "o", .jobj [
        (strLit "type", .jstr (strLit "MultiPolygon")),
        (strLit "arcs", .jarr [.jarr [.jarr [.jint 0]]])])]),
    (strLit "arcs", topoArcsC1)]

/-- A TopoJSON document whose first object is a LineString referencing arc 0
and the out-of-range arc 5; the arc table holds a single arc decoding to
(0,0), (1,1). -/
def topoDocC3 : JValue :=
  .jobj [
    (strLit "objects", .jobj [
      (strLit "o", .jobj [
        (strLit "type", .jstr (strLit "LineString")),
        (strLit "arcs", .jarr [.jint 0, .jint 5])])]),
    (strLit "arcs", .jarr [.jarr [.jarr [.jint 0, .jint 0], .jarr [.jint 1, .jint 1]]])]

/-- Library stub whose JSON parser returns the C1 multipolygon document. -/
def libsC1 : Libs := { noLibs with jsonParse := fun _ => some topoDocC1 }

/-- Library stub whose JSON parser returns the C3 linestring document. -/
def libsC3 : Libs := { noLibs with jsonParse := fun _ => some topoDocC3 }

/-- A library stub whose JSON parser returns a bare two-element array, the
shape on which _parse_geojson raises AttributeError into the caller. -/
def libsArr : Libs := { noLibs with jsonParse := fun _ => some (.jarr [.jint 1, .jint 2]) }

/-- The five-number array serving as the C9 rectangle counterexample argument. -/
def rect5Arr : JValue := .jarr [.jint 0, .jint 0, .jint 2, .jint 3, .jint 9]

/-- A library stub whose JSON parser returns a five-number array, the argument
of the C9 rectangle counterexample. -/
def libsRect5 : Libs := { noLibs with jsonParse := fun _ => some rect5Arr }

/-- A non-null, non-empty library geometry used to stub the WKT reader. -/
def okGeom : LibGeom := ⟨false, false, 7⟩

/-- A library stub whose WKT reader returns `okGeom` for every input. -/
def libsWkt : Libs := { noLibs with wktRead := fun _ => okGeom }

/-! ## Specification-side definitions

The following definitions are written from the wording of the specification
claims, not from the source; the refinement theorems below compare them with
the embedded code. -/

/-- Running sums of coordinate deltas starting from a given point, in array
order. -/
def prefixFrom : Rat → Rat → List (Rat × Rat) → List (Rat × Rat)
  | _, _, [] => []
  | x, y, (a, b) :: t => (x + a, y + b) :: prefixFrom (x + a) (y + b) t

/-- Decoded absolute points of an arc: prefix sums of its deltas starting
from (0,0). -/
def specDecodeArc (deltas : List (Rat × Rat)) : List (Rat × Rat) := prefixFrom 0 0 deltas

/-- The arc-table index selected by a signed reference: a non-negative
reference selects itself, a negative reference r selects its bitwise
complement, -r-1. -/
def specArcIndex (r : Int) : Int := if 0 ≤ r then r else -r - 1

/-- Whether a signed reference selects an index inside the arc table. -/
def arcInRange (len : Nat) (r : Int) : Bool := specArcIndex r < (len : Int)

/-- The arc selected by a signed reference: traversed forward when the
reference is non-negative; decoded and then reversed when negative. -/
def specSelectArc (arcs : List (List (Rat × Rat))) (r : Int) : List (Rat × Rat) :=
  if 0 ≤ r then specDecodeArc (arcs.getD r.toNat [])
  else (specDecodeArc (arcs.getD (-r - 1).toNat [])).reverse

/-- Concatenation of consecutive decoded arcs within one line or ring: when
the last accumulated point equals the first point of the next decoded arc,
that duplicate junction point is dropped exactly once before appending. -/
def specJoin (acc d : List (Rat × Rat)) : List (Rat × Rat) :=
  if acc ≠ [] ∧ d ≠ [] ∧ acc.getLast? = d.head? then acc ++ d.tail else acc ++ d

/-- Full resolution of a list of signed arc references within one line or
ring, per the specification wording. -/
def specResolveRing (arcs : List (List (Rat × Rat))) (refs : List Int) : List (Rat × Rat) :=
  refs.foldl (fun acc r => specJoin acc (specSelectArc arcs r)) []

/-- Encoding of an absolute or delta point into its JSON representation. -/
def encPoint (p : Rat × Rat) : JValue := .jarr [.jnum p.1, .jnum p.2]

/-- Encoding of one delta-encoded arc. -/
def encArc (a : List (Rat × Rat)) : JValue := .jarr (a.map encPoint)

/-- Encoding of an arc table. -/
def encArcs (arcs : List (List (Rat × Rat))) : JValue := .jarr (arcs.map encArc)

/-- Encoding of a list of signed arc references. -/
def encRefs (refs : List Int) : List JValue := refs.map .jint

/-- The packed geometry-type word of a candidate hex geometry string, per the
claim wording: the 4 bytes after the endianness byte, byte-swapped when the
first byte pair is 01 (little-endian) and read directly otherwise. -/
def specTypeWord (s : Str) : Nat :=
  let tw := (s.drop 2).take 8
  if lowerStr (s.take 2) == strLit "01" then hexToNat ((hexPairs tw).reverse.flatten)
  else hexToNat tw

/-- The follow-character test of the WKT detection claim: the character
immediately following the keyword is end-of-string, a space, an opening
parenthesis, Z or M. -/
def followCharOk (u kw : Str) : Bool :=
  match (u.drop kw.length).head? with
  | none => true
  | some c => c == ' ' || c == '(' || c == 'Z' || c == 'M'

/-- The rectangle result per the amended C9 claim: at least 4 entries whose
first four are numbers west, south, east, north, synthesized into the closed
5-point ring SW, SE, NE, NW, SW. -/
def specRectangle (xs : List JValue) : Option Geometry :=
  match xs with
  | a :: b :: c :: d :: _ =>
    match a.toQ, b.toQ, c.toQ, d.toQ with
    | .ok w, .ok s, .ok e, .ok n => some (.polygon [[(w, s), (e, s), (e, n), (w, n), (w, s)]])
    | _, _, _, _ => none
  | _ => none

section Sanity
-- C1 scenario: the multipolygon object resolves to None.
example : parse libsC1 (strLit "t") .TOPOJSON 4326 none none = none := by decide
-- C3 scenario: the out-of-range reference is skipped and decoding succeeds.
example : parse libsC3 (strLit "t") .TOPOJSON 4326 none none
    = some (.polyline [(0, 0), (1, 1)]) := by decide
-- resolve_arcs on the multipolygon nesting always yields the empty list.
example : resolve_arcs (.jarr [.jarr [.jarr [.jint 0]]])
    (.jarr [.jarr [.jarr [.jint 0, .jint 0], .jarr [.jint 1, .jint 0]]]) = .ok [] := by decide
-- but the inner polygon level resolves fine.
example : resolve_arcs (.jarr [.jarr [.jint 0]])
    (.jarr [.jarr [.jarr [.jint 0, .jint 0], .jarr [.jint 1, .jint 0], .jarr [.jint 0, .jint 1]]])
    = .ok [[(0, 0), (1, 0), (1, 1)]] := by decide
-- junction dedup and reversal: refs [0, -2] over two arcs sharing the point (1,0).
example : resolveGroup
    (.jarr [.jarr [.jarr [.jint 0, .jint 0], .jarr [.jint 1, .jint 0]],
            .jarr [.jarr [.jint 2, .jint 0], .jarr [.jint (-1), .jint 0]]])
    [.jint 0, .jint (-2)]
    = .ok [(0, 0), (1, 0), (2, 0)] := by decide
-- GeoJSON on a bare array raises AttributeError inside the sub-decoder; the
-- top-level catch converts it to None.
example : parseBody libsArr (strLit "[1,2]") .GEOJSON = .error .attrE := by decide
example : parse libsArr (strLit "[1,2]") .GEOJSON 0 none none = none := by decide
-- Earth Engine rectangle with five numbers still succeeds (len >= 4).
example : parse libsRect5 (strLit "ee.Geometry.Rectangle([0,0,2,3,9])") .EARTH_ENGINE 0 none none
    = some (.polygon [[(0, 0), (2, 0), (2, 3), (0, 3), (0, 0)]]) := by decide
-- EWKT: the result is the bare WKT geometry; no SRID accompanies it.
example : parse libsWkt (strLit "SRID=4326;POINT(1 2)") .EWKT 0 none none
    = some (.lib okGeom) := by decide
example : ewktMatch (strLit "SRID=4326;POINT(1 2)") = some (strLit "4326", strLit "POINT(1 2)") := by
  decide
-- GeoJSON polygon ring filtering: a 2-point ring is dropped, the 4-point ring kept.
example :
    geojsonCore (.jobj [
      (strLit "type", .jstr (strLit "Polygon")),
      (strLit "coordinates", .jarr [
        .jarr [.jarr [.jint 0, .jint 0], .jarr [.jint 1, .jint 1]],
        .jarr [.jarr [.jint 0, .jint 0], .jarr [.jint 1, .jint 0], .jarr [.jint 1, .jint 1],
               .jarr [.jint 0, .jint 0]]])])
    = .ok (some (.polygon [[(0, 0), (1, 0), (1, 1), (0, 0)]])) := by decide
-- XY decoding.
example : parse noLibs [] .XY 0 (some 1) (some 2) = some (.point 1 2) := by decide
example : parse noLibs [] .XY 0 none (some 2) = none := by decide
example : pyStrip (strLit "  ab ") = strLit "ab" := by decide
example : containsSub (strLit "xabcy") (strLit "abc") = true := by decide
example : containsSub (strLit "xaby") (strLit "abc") = false := by decide
example : splitOnChar ',' (strLit "1,2,") = [strLit "1", strLit "2", []] := by decide
example : splitWs (strLit " a  bc ") = [strLit "a", strLit "bc"] := by decide
example : hexToNat (strLit "01000020") = 0x01000020 := by decide
example : unhex (strLit "0a1f") = some [10, 31] := by decide
example : unhex (strLit "0a1") = none := by decide
example : sfx (strLit "coordinates") (strLit "gx:coordinates") = true := by decide
example : detect_format noLibs (strLit "POINT(1 2)") = .WKT := by decide
example : detect_format noLibs (strLit "SRID=4326;POINT(1 2)") = .EWKT := by decide
example : detect_format noLibs (strLit "POINTER(1 2)") = .UNKNOWN := by decide
example : detect_format noLibs (strLit "ee.Geometry.Point([1,2])") = .EARTH_ENGINE := by decide
example : detect_format noLibs (strLit "0101000020E6100000") = .EWKB := by decide
example : detect_format noLibs (strLit "0101000000") = .WKB := by decide
example : detect_format noLibs (strLit "0020000001") = .EWKB := by decide
example : detect_format noLibs (strLit "AB") = .WKB := by decide
example : detect_format noLibs (strLit "") = .UNKNOWN := by decide
end Sanity

/-! ## Helper lemmas -/

/-- `qadd` is ordinary rational addition. -/
theorem qadd_eq_add (a b : Rat) : qadd a b = a + b := (Rat.add_def' a b).symm

/-- Delta decoding of an encoded arc computes the running sums from the given
start point. -/
theorem decodeDeltaLoop_enc (a : List (Rat × Rat)) (x y : Rat) :
    decodeDeltaLoop (a.map encPoint) x y = .ok (prefixFrom x y a) := by
  induction a generalizing x y with
  | nil => simp [decodeDeltaLoop, prefixFrom]
  | cons p t ih =>
    obtain ⟨pa, pb⟩ := p
    simp [decodeDeltaLoop, prefixFrom, encPoint, JValue.pyLen, JValue.pyIndex, JValue.toQ,
      qadd_eq_add, Except.instMonad, Except.bind, Except.pure, ih]

/-! ## Claim theorems -/

/-- The selected index is never negative: a non-negative reference selects
itself and a negative reference r selects -r-1 which is non-negative. -/
theorem specArcIndex_nonneg (r : Int) : 0 ≤ specArcIndex r := by
  unfold specArcIndex; split <;> omega

/-- One resolution step on encoded inputs is the specification step, skipping
out-of-range references. -/
theorem resolveStep_enc (arcs : List (List (Rat × Rat))) (coords : List (Rat × Rat)) (r : Int) :
    resolveStep (encArcs arcs) coords (.jint r)
      = .ok (if arcInRange arcs.length r then specJoin coords (specSelectArc arcs r)
             else coords) := by
  have hidx : (if 0 ≤ r then r else -r - 1) = specArcIndex r := by unfold specArcIndex; rfl
  by_cases h : arcInRange arcs.length r
  · have hlt : specArcIndex r < (arcs.length : Int) := by
      simpa [arcInRange] using h
    have hnn := specArcIndex_nonneg r
    have htn : (specArcIndex r).toNat < arcs.length := by omega
    have hget : (arcs.map encArc).getD (specArcIndex r).toNat .jnull
        = encArc (arcs.getD (specArcIndex r).toNat []) := by
      rw [List.getD_eq_getElem _ _ (by simpa using htn), List.getElem_map,
        List.getD_eq_getElem _ _ htn]
    simp only [resolveStep, JValue.asInt, hidx, encArcs, JValue.pyLen, JValue.pyIndex,
      JValue.pySliceCopy, JValue.pyIter, List.length_map, Except.instMonad, Except.bind]
    rw [if_pos ⟨hnn, hlt⟩, if_neg (by omega : ¬ specArcIndex r < 0)]
    rw [if_pos ⟨hnn, hlt⟩]
    simp only [hget, encArc, decodeDeltaLoop_enc]
    have hsel : (if r < 0 then (prefixFrom 0 0 (arcs.getD (specArcIndex r).toNat [])).reverse
        else prefixFrom 0 0 (arcs.getD (specArcIndex r).toNat []))
        = specSelectArc arcs r := by
      unfold specSelectArc specDecodeArc specArcIndex
      by_cases hr : 0 ≤ r
      · rw [if_neg (by omega), if_pos hr, if_pos hr]
      · rw [if_pos (by omega), if_neg hr, if_neg hr]
    rw [hsel]
    unfold specJoin
    by_cases hj : coords ≠ [] ∧ specSelectArc arcs r ≠ [] ∧
        coords.getLast? = (specSelectArc arcs r).head?
    · rw [if_pos hj]
      have : (!coords.isEmpty && !(specSelectArc arcs r).isEmpty &&
          coords.getLast? == (specSelectArc arcs r).head?) = true := by
        obtain ⟨h1, h2, h3⟩ := hj
        simp [List.isEmpty_iff, h1, h2, h3]
      rw [if_pos this, if_pos h]
      rfl
    · rw [if_neg hj]
      have : (!coords.isEmpty && !(specSelectArc arcs r).isEmpty &&
          coords.getLast? == (specSelectArc arcs r).head?) = false := by
        rcases Decidable.not_and_iff_or_not.mp hj with h1 | h23
        · simp [List.isEmpty_iff, not_not.mp h1]
        · rcases Decidable.not_and_iff_or_not.mp h23 with h2 | h3
          · simp [List.isEmpty_iff, not_not.mp h2]
          · simp [beq_eq_false_iff_ne, h3]
      rw [if_neg (by simp [this]), if_pos h]
      rfl
  · have hge : ¬ specArcIndex r < (arcs.length : Int) := by
      simpa [arcInRange] using h
    simp only [resolveStep, JValue.asInt, hidx, encArcs, JValue.pyLen, List.length_map,
      Except.instMonad, Except.bind]
    rw [if_neg (by exact fun hc => hge hc.2), if_neg h]
    rfl

/-- The inner loop of _resolve_arcs on encoded inputs folds the specification
step over the in-range references, from any accumulator. -/
theorem resolveGroup_enc (arcs : List (List (Rat × Rat))) (refs : List Int) :
    resolveGroup (encArcs arcs) (encRefs refs)
      = .ok (specResolveRing arcs (refs.filter (fun r => arcInRange arcs.length r))) := by
  suffices h : ∀ (rs : List Int) (acc : List (Rat × Rat)),
      (encRefs rs).foldlM (resolveStep (encArcs arcs)) acc
        = .ok ((rs.filter (fun r => arcInRange arcs.length r)).foldl
            (fun a r => specJoin a (specSelectArc arcs r)) acc) by
    simpa [resolveGroup, specResolveRing] using h refs []
  intro rs
  induction rs with
  | nil => intro acc; simp [encRefs, pure, Except.pure]
  | cons r t ih =>
    intro acc
    rw [encRefs, List.map_cons, List.foldlM_cons, resolveStep_enc]
    by_cases h : arcInRange arcs.length r
    · simp only [h, if_true, List.filter_cons, Except.instMonad, Except.bind]
      simpa [encRefs, List.filter_cons, h] using ih (specJoin acc (specSelectArc arcs r))
    · simp only [h, if_false, Bool.false_eq_true, Except.instMonad, Except.bind]
      simpa [encRefs, List.filter_cons, h] using ih acc

/-- C2: for every arc table and every list of signed arc references within one
line or ring whose references all select indices inside the table, the
embedded arc resolution equals the specification: a non-negative reference i
selects arc i forward; a negative reference r selects arc -r-1 (bitwise
complement) with the decoded absolute points (prefix sums of the deltas from
(0,0)) reversed after decoding; and a duplicated junction point between
consecutive arcs is dropped exactly once before appending. -/
theorem c2_arc_resolution (arcs : List (List (Rat × Rat))) (refs : List Int)
    (h : ∀ r ∈ refs, arcInRange arcs.length r = true) :
    resolveGroup (encArcs arcs) (encRefs refs) = .ok (specResolveRing arcs refs) := by
  rw [resolveGroup_enc, List.filter_eq_self.mpr h]

/-- Witness for C2: two arcs sharing the junction point (1,0), the second
selected in reverse by the negative reference -2; the duplicate junction point
is dropped. -/
theorem c2_arc_resolution_witness :
    resolveGroup (encArcs [[(0, 0), (1, 0)], [(2, 0), (-1, 0)]]) (encRefs [0, -2])
      = .ok (specResolveRing [[(0, 0), (1, 0)], [(2, 0), (-1, 0)]] [0, -2])
    ∧ resolveGroup (encArcs [[(0, 0), (1, 0)], [(2, 0), (-1, 0)]]) (encRefs [0, -2])
      = .ok [(0, 0), (1, 0), (2, 0)] :=
  ⟨c2_arc_resolution _ _ (by decide), by decide⟩

/-- C3 counterexample: the C3 document is a TopoJSON linestring whose arc list
contains the reference 5, out of range for its single-arc table (first
conjunct), yet decode does not fail: it silently drops the out-of-range arc
and succeeds with the remaining arc (second conjunct). -/
theorem c3_counterexample :
    arcInRange 1 5 = false
    ∧ parse libsC3 (strLit "t") .TOPOJSON 4326 none none
        = some (.polyline [(0, 0), (1, 1)]) :=
  ⟨by decide, by decide⟩

/-- C3 amended: an out-of-range arc reference inside a line or ring is
silently skipped by arc resolution, so decoding proceeds exactly as if the
reference list had been filtered down to its in-range references; a decode
failure arises only when nothing survives elsewhere in the pipeline. -/
theorem c3_out_of_range_skipped (arcs : List (List (Rat × Rat))) (refs : List Int) :
    resolveGroup (encArcs arcs) (encRefs refs)
      = .ok (specResolveRing arcs (refs.filter (fun r => arcInRange arcs.length r))) :=
  resolveGroup_enc arcs refs

/-- C5: for every trimmed string of even length at least 2 consisting solely
of hexadecimal digits that no earlier detection step matches, detect
classifies it as WKB or EWKB: with at least 10 hex characters it returns EWKB
exactly when the flag 0x20000000 is set in the packed type word (the 4 bytes
after the endianness byte, byte-swapped when the first byte pair is 01);
shorter all-hex strings classify as WKB without the bit test. -/
theorem c5_hex_detection (L : Libs) (s : Str)
    (h0 : pyStrip s = s)
    (h1 : 2 ≤ s.length) (h2 : s.length % 2 = 0) (h3 : ∀ c ∈ s, isHexChar c = true)
    (h4 : pfx (strLit "SRID=") (upperStr s) = false)
    (h5 : wktAny (upperStr s) = false)
    (h6 : s.head? ≠ some '\x7b')
    (h7 : ((s.head? == some '<' || containsSub (lowerStr s) (strLit "<coordinates"))
            && kmlElems.any (fun e => containsSub (lowerStr s) e)) = false)
    (h8 : pfx (strLit "ee.Geometry") s = false) :
    detect_format L s
      = (if 10 ≤ s.length ∧ Nat.land (specTypeWord s) 0x20000000 ≠ 0
         then Fmt.EWKB else Fmt.WKB) := by
  have hempty : s.isEmpty = false := by
    cases s with
    | nil => simp at h1
    | cons a t => rfl
  have hjson : (s.head? == some '\x7b') = false := by
    cases hh : s.head? with
    | none => rfl
    | some c =>
      have : c ≠ '\x7b' := fun hc => h6 (by rw [hh, hc])
      simpa using this
  have hall : s.all isHexChar = true := List.all_eq_true.mpr h3
  have hlen2 : (2 ≤ s.length && s.length % 2 == 0 && s.all isHexChar) = true := by
    simp [h1, h2, hall]
  have htw : hexTypeInt s = specTypeWord s := rfl
  unfold detect_format
  rw [h0, if_neg (by simp [hempty]), if_neg (by simp [h4]), if_neg (by simp [h5]), hjson]
  simp only [Bool.false_eq_true, if_false]
  rw [if_neg (by simp [h7]), if_neg (by simp [h8]), if_pos (by simp [hlen2])]
  unfold hexStep
  rw [htw]
  by_cases hlen : 10 ≤ s.length
  · rw [if_pos hlen]
    by_cases hbit : Nat.land (specTypeWord s) 0x20000000 ≠ 0
    · rw [if_pos hbit, if_pos ⟨hlen, hbit⟩]
    · rw [if_neg hbit, if_neg (fun hc => hbit hc.2)]
  · rw [if_neg hlen, if_neg (fun hc => hlen hc.1)]

/-- Witness for C5: a little-endian EWKB point header with the SRID flag set
detects as EWKB. -/
theorem c5_hex_detection_witness :
    detect_format noLibs (strLit "0101000020E6100000") = Fmt.EWKB
    ∧ Nat.land (specTypeWord (strLit "0101000020E6100000")) 0x20000000 ≠ 0 := by
  constructor
  · rw [c5_hex_detection noLibs _ (by decide) (by decide) (by decide) (by decide) (by decide)
      (by decide) (by decide) (by decide) (by decide)]
    decide
  · decide

/-- Two prefixes of the same string are comparable. -/
theorem pfx_total (a b c : Str) (ha : pfx a c = true) (hb : pfx b c = true) :
    pfx a b = true ∨ pfx b a = true := by
  induction c generalizing a b with
  | nil =>
    cases a with
    | nil => exact Or.inl rfl
    | cons x xs => simp [pfx] at ha
  | cons d t ih =>
    cases a with
    | nil => exact Or.inl rfl
    | cons x xs =>
      cases b with
      | nil => exact Or.inr rfl
      | cons y ys =>
        simp only [pfx, Bool.and_eq_true, beq_iff_eq] at ha hb
        rcases ih xs ys ha.2 hb.2 with h | h
        · exact Or.inl (by simp [pfx, ha.1, hb.1, h])
        · exact Or.inr (by simp [pfx, ha.1, hb.1, h])

/-- A non-empty prefix forces a non-empty string. -/
theorem pfx_ne_nil (a : Char) (as u : Str) (h : pfx (a :: as) u = true) : u ≠ [] := by
  cases u with
  | nil => simp [pfx] at h
  | cons _ _ => simp

/-- The keyword hit of the detection loop is prefix plus follow-character test. -/
theorem kwHit_eq (u kw : Str) : kwHit u kw = (pfx kw u && followCharOk u kw) := by
  unfold kwHit followCharOk
  cases h : u.drop kw.length <;> simp [h]

/-- The WKT keyword list is prefix-free. -/
theorem wktTypes_prefix_free :
    ∀ k1 ∈ wktTypes, ∀ k2 ∈ wktTypes, pfx k1 k2 = true → k1 = k2 := by decide

/-- No WKT keyword is empty. -/
theorem wktTypes_ne_nil : ∀ kw ∈ wktTypes, kw ≠ [] := by decide

/-- No WKT keyword is prefix-comparable with the EWKT prefix. -/
theorem wktTypes_srid : ∀ kw ∈ wktTypes,
    pfx (strLit "SRID=") kw = false ∧ pfx kw (strLit "SRID=") = false := by decide

/-- The JSON detection step never yields WKT. -/
theorem jsonStep_ne_wkt (L : Libs) (s : Str) : jsonStep L s ≠ some Fmt.WKT := by
  unfold jsonStep
  cases L.jsonParse s with
  | none => simp
  | some v =>
    cases v with
    | jobj kvs =>
      dsimp only
      split
      · simp
      · split <;> simp
    | jnull => simp
    | jbool b => simp
    | jint n => simp
    | jnum q => simp
    | jstr s2 => simp
    | jarr xs => simp

/-- The hex detection step never yields WKT. -/
theorem hexStep_ne_wkt (s : Str) : hexStep s ≠ Fmt.WKT := by
  unfold hexStep
  split
  · split <;> simp
  · simp

/-- Characterization of a WKT detection result: the trimmed sample is
non-empty, the EWKT prefix is absent, and some keyword hits. -/
theorem detect_eq_wkt_iff (L : Libs) (s : Str) :
    detect_format L s = Fmt.WKT
      ↔ ((pyStrip s).isEmpty = false
          ∧ pfx (strLit "SRID=") (upperStr (pyStrip s)) = false
          ∧ wktAny (upperStr (pyStrip s)) = true) := by
  unfold detect_format
  by_cases he : (pyStrip s).isEmpty
  · simp [he]
  · by_cases hs : pfx (strLit "SRID=") (upperStr (pyStrip s)) = true
    · simp [he, hs]
    · by_cases hw : wktAny (upperStr (pyStrip s)) = true
      · simp [he, hs, hw]
      · simp only [he, hs, hw, if_true, if_false, Bool.false_eq_true, ite_false,
          eq_self_iff_true]
        cases hj : (if (pyStrip s).head? == some '\x7b' then jsonStep L (pyStrip s) else none) with
        | some f =>
          have hf : f ≠ Fmt.WKT := by
            by_cases hc : ((pyStrip s).head? == some '\x7b') = true
            · rw [if_pos hc] at hj
              exact fun heq => jsonStep_ne_wkt L (pyStrip s) (hj.trans (by rw [heq]))
            · rw [if_neg hc] at hj
              cases hj
          simp [hj, hf, hs, hw, he]
        | none =>
          simp only [hj]
          constructor
          · intro h
            exfalso
            revert h
            split
            · simp
            · split
              · simp
              · split
                · exact fun h => hexStep_ne_wkt _ h
                · simp
          · intro h
            exact h.2.2.elim

/-- C6 counterexample: the upper-cased form of the sample POINT followed by a
newline starts with the keyword POINT, the character immediately following
the keyword is a newline, which fails the follow-character test, and yet
detect returns WKT, because detection strips trailing whitespace first. -/
theorem c6_counterexample :
    pfx (strLit "POINT") (upperStr (strLit "POINT" ++ ['\n'])) = true
    ∧ followCharOk (upperStr (strLit "POINT" ++ ['\n'])) (strLit "POINT") = false
    ∧ detect_format noLibs (strLit "POINT" ++ ['\n']) = Fmt.WKT :=
  ⟨by decide, by decide, by decide⟩

/-- C6 amended: for every string equal to its own trim whose upper-cased form
starts with a WKT geometry-type keyword, detect returns WKT exactly when the
character immediately following the keyword is end-of-string, a space, an
opening parenthesis, Z or M; and detect on POINTER(1 2) yields Unknown for
every library. -/
theorem c6_wkt_follow_guard :
    (∀ (L : Libs) (s kw : Str), pyStrip s = s → kw ∈ wktTypes →
      pfx kw (upperStr s) = true →
      (detect_format L s = Fmt.WKT ↔ followCharOk (upperStr s) kw = true))
    ∧ (∀ L : Libs, detect_format L (strLit "POINTER(1 2)") = Fmt.UNKNOWN) := by
  constructor
  · intro L s kw h0 hmem hp
    rw [detect_eq_wkt_iff, h0]
    have hkne : kw ≠ [] := wktTypes_ne_nil kw hmem
    have hsne : s ≠ [] := by
      intro hnil
      subst hnil
      cases kw with
      | nil => exact hkne rfl
      | cons a as => simp [upperStr, pfx] at hp
    have hie : s.isEmpty = false := by cases s <;> simp_all
    have hsrid : pfx (strLit "SRID=") (upperStr s) = false := by
      by_contra hc
      have hc2 : pfx (strLit "SRID=") (upperStr s) = true := by
        cases h : pfx (strLit "SRID=") (upperStr s) <;> simp_all
      rcases pfx_total _ _ _ hc2 hp with h | h
      · exact absurd h (by simpa using (wktTypes_srid kw hmem).1)
      · exact absurd h (by simpa using (wktTypes_srid kw hmem).2)
    constructor
    · rintro ⟨-, -, hany⟩
      rcases List.any_eq_true.mp hany with ⟨kw2, hmem2, hhit2⟩
      rw [kwHit_eq] at hhit2
      have hp2 := (Bool.and_eq_true _ _).mp hhit2
      rcases pfx_total _ _ _ hp2.1 hp with h | h
      · rw [wktTypes_prefix_free kw2 hmem2 kw hmem h] at hp2
        exact hp2.2
      · rw [← wktTypes_prefix_free kw hmem kw2 hmem2 h] at hp2
        exact hp2.2
    · intro hfollow
      refine ⟨hie, hsrid, ?_⟩
      exact List.any_eq_true.mpr ⟨kw, hmem, by rw [kwHit_eq, hp, hfollow]; rfl⟩
  · intro L
    rfl

/-- Witness for C6: the sample POINT(1 2) is its own trim, starts with the
keyword POINT, the follow character is an opening parenthesis, and detect
returns WKT. -/
theorem c6_wkt_follow_guard_witness :
    (detect_format noLibs (strLit "POINT(1 2)") = Fmt.WKT ↔
      followCharOk (upperStr (strLit "POINT(1 2)")) (strLit "POINT") = true)
    ∧ detect_format noLibs (strLit "POINT(1 2)") = Fmt.WKT :=
  ⟨c6_wkt_follow_guard.1 noLibs _ _ (by decide) (by decide) (by decide), by decide⟩

/-- C7: parse never propagates an exception to the caller: whenever the
try-block dispatch on the stripped value raises, parse returns the failure
signal None; and for every format other than the coordinate-pair format, a
value that is empty after trimming yields the failure signal without invoking
any sub-decoder. -/
theorem c7_no_exception_propagation (L : Libs) (v : Str) (fmt : Fmt) (srid : Int)
    (x y : Option Rat) :
    (fmt ≠ .XY → pyStrip v = [] → parse L v fmt srid x y = none)
    ∧ (∀ e, parseBody L (pyStrip v) fmt = .error e → parse L v fmt srid x y = none) := by
  constructor
  · intro hfmt hempty
    simp [parse, hfmt, hempty]
  · intro e he
    by_cases hfmt : fmt = Fmt.XY
    · subst hfmt
      simp [parseBody] at he
    · unfold parse
      rw [if_neg hfmt]
      by_cases hemp : (pyStrip v).isEmpty
      · simp [hemp]
      · simp [hemp, he]

/-- Witness for C7: GeoJSON on a bare JSON array raises AttributeError inside
the sub-decoder and parse yields None; a whitespace-only WKT value yields None
without dispatching. -/
theorem c7_no_exception_propagation_witness :
    parse libsArr (strLit "[1,2]") .GEOJSON 0 none none = none
    ∧ parse noLibs [' '] .WKT 0 none none = none :=
  ⟨(c7_no_exception_propagation libsArr (strLit "[1,2]") .GEOJSON 0 none none).2 .attrE
      (by decide),
   (c7_no_exception_propagation noLibs [' '] .WKT 0 none none).1 (by decide) (by decide)⟩

/-- Indexing an array value at an in-range natural index. -/
theorem pyIndex_jarr_nat (xs : List JValue) (n : Nat) (h : n < xs.length) :
    JValue.pyIndex (.jarr xs) (n : Int) = .ok (xs.getD n .jnull) := by
  simp only [JValue.pyIndex]
  rw [if_neg (by omega : ¬ (n : Int) < 0)]
  rw [if_pos ⟨by omega, by exact_mod_cast h⟩]
  simp

/-- The rectangle branch, seen through the top-level error boundary, computes
the specification rectangle. -/
theorem eeRect_parse (xs : List JValue) :
    (match eeRect (.jarr xs) with
     | .ok r => r
     | .error _ => none) = specRectangle xs := by
  match xs with
  | [] => rfl
  | [a] => rfl
  | [a, b] => rfl
  | [a, b, c] => rfl
  | a :: b :: c :: d :: t =>
    have h4 : 4 ≤ (a :: b :: c :: d :: t).length := by
      simp only [List.length_cons]; omega
    have hi0 : JValue.pyIndex (.jarr (a :: b :: c :: d :: t)) 0 = .ok a := by
      simpa using pyIndex_jarr_nat (a :: b :: c :: d :: t) 0
        (by simp only [List.length_cons]; omega)
    have hi1 : JValue.pyIndex (.jarr (a :: b :: c :: d :: t)) 1 = .ok b := by
      simpa using pyIndex_jarr_nat (a :: b :: c :: d :: t) 1
        (by simp only [List.length_cons]; omega)
    have hi2 : JValue.pyIndex (.jarr (a :: b :: c :: d :: t)) 2 = .ok c := by
      simpa using pyIndex_jarr_nat (a :: b :: c :: d :: t) 2
        (by simp only [List.length_cons]; omega)
    have hi3 : JValue.pyIndex (.jarr (a :: b :: c :: d :: t)) 3 = .ok d := by
      simpa using pyIndex_jarr_nat (a :: b :: c :: d :: t) 3
        (by simp only [List.length_cons]; omega)
    cases hqa : a.toQ <;> cases hqb : b.toQ <;> cases hqc : c.toQ <;> cases hqd : d.toQ <;>
      simp [eeRect, specRectangle, JValue.pyLen, hi0, hi1, hi2, hi3, hqa, hqb, hqc, hqd,
        Except.instMonad, Except.bind, Except.pure, pure, h4]

/-- C9 counterexample: the Earth Engine rectangle with the five-number
argument [0,0,2,3,9] decodes successfully (the code only requires at least 4
numbers, using the first four), contradicting the claim that decode succeeds
exactly on arrays of exactly 4 numbers. -/
theorem c9_counterexample :
    libsRect5.jsonParse (strLit "[0,0,2,3,9]")
      = some (.jarr [.jint 0, .jint 0, .jint 2, .jint 3, .jint 9])
    ∧ parse libsRect5 (strLit "ee.Geometry.Rectangle([0,0,2,3,9])") .EARTH_ENGINE 0 none none
        = some (.polygon [[(0, 0), (2, 0), (2, 3), (0, 3), (0, 0)]]) :=
  ⟨rfl, by decide⟩

/-- C9 amended: for every Earth Engine input whose pattern match yields the
kind rectangle (or bbox) and whose bracketed argument parses as a JSON array,
decode succeeds exactly when the array has at least 4 entries whose first four
are numbers [west, south, east, north], and on success returns the single-ring
Polygon with the closed 5-point sequence (west,south), (east,south),
(east,north), (west,north), (west,south). -/
theorem c9_rectangle (L : Libs) (v word cap : Str) (xs : List JValue)
    (srid : Int) (x y : Option Rat)
    (h0 : pyStrip v = v)
    (h1 : eeMatch v = some (word, cap))
    (h2 : lowerStr word = strLit "rectangle" ∨ lowerStr word = strLit "bbox")
    (h3 : L.jsonParse cap = some (.jarr xs)) :
    parse L v .EARTH_ENGINE srid x y = specRectangle xs := by
  have hpfx : pfx (strLit "ee.Geometry.") (pyStrip v) = true := by
    by_contra hc
    have hf : pfx (strLit "ee.Geometry.") (pyStrip v) = false := by
      cases hx : pfx (strLit "ee.Geometry.") (pyStrip v)
      · rfl
      · exact absurd hx hc
    simp only [eeMatch, hf, Bool.false_eq_true, if_false] at h1
    exact Option.noConfusion h1
  have hvne : v ≠ [] := by
    intro hnil
    subst hnil
    simp [pyStrip, pfx, strLit] at hpfx
  have hdisp : ∀ gt, (gt = strLit "rectangle" ∨ gt = strLit "bbox") →
      eeDispatch gt (.jarr xs) = eeRect (.jarr xs) := by
    rintro gt (rfl | rfl)
    · unfold eeDispatch
      rw [if_neg (by decide), if_neg (by decide), if_neg (by decide), if_neg (by decide),
        if_neg (by decide), if_neg (by decide), if_pos (by decide)]
    · unfold eeDispatch
      rw [if_neg (by decide), if_neg (by decide), if_neg (by decide), if_neg (by decide),
        if_neg (by decide), if_neg (by decide), if_pos (by decide)]
  unfold parse
  rw [if_neg (by decide : ¬ (Fmt.EARTH_ENGINE = Fmt.XY)), h0,
    if_neg (by simpa using hvne)]
  show (match parse_earth_engine L v with | .ok r => r | .error _ => none) = _
  unfold parse_earth_engine eeTry
  rw [h1]
  dsimp only
  rw [h3]
  dsimp only
  rw [hdisp (lowerStr word) h2]
  cases heer : eeRect (.jarr xs) with
  | ok r =>
    have hs := eeRect_parse xs
    rw [heer] at hs
    simpa using hs
  | error k =>
    have hs := eeRect_parse xs
    rw [heer] at hs
    by_cases hk : (k == ErrKind.valueE || k == ErrKind.indexE) = true <;>
      simp [hk, ← hs]

/-- Witness for C9: the kind word bbox with argument [0,1,2,3] decodes to the
closed rectangle ring. -/
theorem c9_rectangle_witness :
    parse { noLibs with jsonParse := fun _ => some (.jarr [.jint 0, .jint 1, .jint 2, .jint 3]) }
        (strLit "ee.Geometry.bbox([0,1,2,3])") .EARTH_ENGINE 0 none none
      = specRectangle [.jint 0, .jint 1, .jint 2, .jint 3]
    ∧ parse { noLibs with jsonParse := fun _ => some (.jarr [.jint 0, .jint 1, .jint 2, .jint 3]) }
        (strLit "ee.Geometry.bbox([0,1,2,3])") .EARTH_ENGINE 0 none none
      = some (.polygon [[(0, 1), (2, 1), (2, 3), (0, 3), (0, 1)]]) :=
  ⟨c9_rectangle _ _ (strLit "bbox") (strLit "[0,1,2,3]") [.jint 0, .jint 1, .jint 2, .jint 3]
      0 none none (by decide) (by decide) (Or.inr (by decide)) rfl, by decide⟩

/-- A geometric union fold starting from a non-empty geometry is non-empty. -/
theorem okFold (l : List Geometry) (g : Geometry) (h : g.ok = true) :
    (l.foldl Geometry.union g).ok = true := by
  induction l generalizing g with
  | nil => exact h
  | cons b t ih => exact ih _ (by simp [Geometry.ok, h])

/-- Every element of a successful mapM result comes from a successful
application of the function to some list element. -/
theorem mapM_ok_mem {α β : Type} (f : α → Except ErrKind β) :
    ∀ (l : List α) (res : List β), l.mapM f = .ok res → ∀ r ∈ res, ∃ x ∈ l, f x = .ok r := by
  intro l
  induction l with
  | nil =>
    intro res h r hr
    rw [List.mapM_nil] at h
    have : res = [] := by
      have h2 : Except.ok (ε := ErrKind) [] = .ok res := h
      cases h2
      rfl
    subst this
    cases hr
  | cons a t ih =>
    intro res h r hr
    rw [List.mapM_cons] at h
    cases hfa : f a with
    | error e => rw [hfa] at h; simp [Except.instMonad, Except.bind] at h
    | ok b =>
      rw [hfa] at h
      cases hmt : t.mapM f with
      | error e => rw [hmt] at h; simp [Except.instMonad, Except.bind] at h
      | ok bs =>
        rw [hmt] at h
        have hres : b :: bs = res := by
          simpa [Except.instMonad, Except.bind, pure, Except.pure] using h
        subst hres
        rcases List.mem_cons.mp hr with hr | hr
        · exact ⟨a, List.mem_cons_self a t, by rw [hfa, hr]⟩
        · rcases ih bs hmt r hr with ⟨x, hx, hfx⟩
          exact ⟨x, List.mem_cons_of_mem a hx, hfx⟩

/-- A successful point body is non-empty. -/
theorem geoPointB_ok (coords : JValue) (g : Geometry)
    (h : geoPointB coords = .ok (some g)) : g.ok = true := by
  unfold geoPointB at h
  simp only [Except.instMonad, Except.bind, Except.pure, pure] at h
  repeat' split at h
  all_goals simp_all [Except.pure, pure, Geometry.ok, List.isEmpty_iff_length_eq_zero]
  all_goals (try (subst h))
  all_goals simp_all [Geometry.ok, List.isEmpty_iff_length_eq_zero]
  all_goals omega

/-- A successful multipoint body is non-empty. -/
theorem geoMultipointB_ok (coords : JValue) (g : Geometry)
    (h : geoMultipointB coords = .ok (some g)) : g.ok = true := by
  unfold geoMultipointB at h
  simp only [Except.instMonad, Except.bind, Except.pure, pure] at h
  repeat' split at h
  all_goals simp_all [Except.pure, pure, Geometry.ok, List.isEmpty_iff_length_eq_zero]
  all_goals (try (subst h))
  all_goals simp_all [Geometry.ok, List.isEmpty_iff_length_eq_zero]
  all_goals omega

/-- A successful linestring body is non-empty. -/
theorem geoLineB_ok (coords : JValue) (g : Geometry)
    (h : geoLineB coords = .ok (some g)) : g.ok = true := by
  unfold geoLineB at h
  simp only [Except.instMonad, Except.bind, Except.pure, pure] at h
  repeat' split at h
  all_goals simp_all [Except.pure, pure, Geometry.ok, List.isEmpty_iff_length_eq_zero]
  all_goals
    rename_i pts hq hlen
    cases pts with
    | nil => simp at hlen
    | cons p t => subst h; rfl

/-- A successful linearring body is non-empty. -/
theorem geoRingB_ok (coords : JValue) (g : Geometry)
    (h : geoRingB coords = .ok (some g)) : g.ok = true := by
  unfold geoRingB at h
  simp only [Except.instMonad, Except.bind, Except.pure, pure] at h
  repeat' split at h
  all_goals simp_all [Except.pure, pure, Geometry.ok, List.isEmpty_iff_length_eq_zero]
  all_goals (try (subst h))
  all_goals simp_all [Geometry.ok, List.isEmpty_iff_length_eq_zero]
  all_goals omega

/-- A successful multilinestring body is non-empty. -/
theorem geoMultilineB_ok (coords : JValue) (g : Geometry)
    (h : geoMultilineB coords = .ok (some g)) : g.ok = true := by
  unfold geoMultilineB at h
  simp only [Except.instMonad, Except.bind, Except.pure, pure] at h
  repeat' split at h
  all_goals simp_all [Except.pure, pure, Geometry.ok, List.isEmpty_iff_length_eq_zero]
  all_goals (try (subst h))
  all_goals simp_all [Geometry.ok, List.isEmpty_iff_length_eq_zero]
  all_goals omega

/-- A successful polygon body is non-empty. -/
theorem geoPolygonB_ok (coords : JValue) (g : Geometry)
    (h : geoPolygonB coords = .ok (some g)) : g.ok = true := by
  unfold geoPolygonB at h
  simp only [Except.instMonad, Except.bind, Except.pure, pure] at h
  repeat' split at h
  all_goals simp_all [Except.pure, pure, Geometry.ok, List.isEmpty_iff_length_eq_zero]
  all_goals (try (subst h))
  all_goals simp_all [Geometry.ok, List.isEmpty_iff_length_eq_zero]
  all_goals omega

/-- A successful multipolygon body is non-empty. -/
theorem geoMultipolygonB_ok (coords : JValue) (g : Geometry)
    (h : geoMultipolygonB coords = .ok (some g)) : g.ok = true := by
  unfold geoMultipolygonB at h
  simp only [Except.instMonad, Except.bind, Except.pure, pure] at h
  repeat' split at h
  all_goals simp_all [Except.pure, pure, Geometry.ok, List.isEmpty_iff_length_eq_zero]
  all_goals (try (subst h))
  all_goals simp_all [Geometry.ok, List.isEmpty_iff_length_eq_zero]
  all_goals omega

/-- A successful rectangle body is non-empty. -/
theorem eeRect_ok (coords : JValue) (g : Geometry)
    (h : eeRect coords = .ok (some g)) : g.ok = true := by
  unfold eeRect at h
  simp only [Except.instMonad, Except.bind, Except.pure, pure] at h
  repeat' split at h
  all_goals simp_all [Except.pure, pure, Geometry.ok, List.isEmpty_iff_length_eq_zero]
  all_goals (try (subst h))
  all_goals simp_all [Geometry.ok, List.isEmpty_iff_length_eq_zero]
  all_goals omega

/-- Every geometry successfully produced by the GeoJSON body is non-empty. -/
theorem geojsonCoreF_ok : ∀ (n : Nat) (v : JValue) (g : Geometry),
    geojsonCoreF n v = .ok (some g) → g.ok = true := by
  intro n
  induction n with
  | zero => intro v g h; simp [geojsonCoreF] at h
  | succ n ih =>
    intro v g h
    cases v with
    | jobj kvs =>
      rw [geojsonCoreF] at h
      split at h
      · split at h
        · dsimp only at h
          repeat' split at h
          all_goals (try (exact geoPointB_ok _ _ h))
          all_goals (try (exact geoMultipointB_ok _ _ h))
          all_goals (try (exact geoLineB_ok _ _ h))
          all_goals (try (exact geoMultilineB_ok _ _ h))
          all_goals (try (exact geoPolygonB_ok _ _ h))
          all_goals (try (exact geoMultipolygonB_ok _ _ h))
          all_goals (try (simp [pure, Except.pure] at h))
          -- remaining: the geometrycollection branch
          simp only [Except.instMonad, Except.bind, Except.pure, pure] at h
          split at h
          · simp at h
          · rename_i members hmembers
            split at h
            · simp at h
            · rename_i mres hloop
              split at h
              · simp at h
              · rename_i g0 rest2 hfk
                have hg : rest2.foldl Geometry.union g0 = g := by
                  have h2 : Except.ok (ε := ErrKind) (some (rest2.foldl Geometry.union g0))
                      = .ok (some g) := h
                  cases h2
                  rfl
                have hmem : some g0 ∈ mres := by
                  have hin : g0 ∈ mres.filterMap id := by
                    rw [hfk]; exact List.mem_cons_self _ _
                  rcases List.mem_filterMap.mp hin with ⟨o, ho, hid⟩
                  cases o with
                  | none => cases hid
                  | some gg => cases hid; exact ho
                have hmapM : members.mapM (fun gv => geojsonCoreF n gv) = .ok mres := hloop
                rcases mapM_ok_mem _ members mres hmapM (some g0) hmem with ⟨x, hx, hfx⟩
                rw [← hg]
                exact okFold rest2 g0 (ih x g0 hfx)
        · simp at h
      · simp at h
    | jnull => simp [geojsonCoreF] at h
    | jbool b => simp [geojsonCoreF] at h
    | jint m => simp [geojsonCoreF] at h
    | jnum q => simp [geojsonCoreF] at h
    | jstr s => simp [geojsonCoreF] at h
    | jarr xs => simp [geojsonCoreF] at h

/-- A list with at least 2 elements is non-empty. -/
theorem ne_nil_of_two {α : Type} (l : List α) (h2 : 2 ≤ l.length) : l ≠ [] := by
  cases l with
  | nil => simp at h2
  | cons a t => simp

/-- A list with at least 2 elements has isEmpty false. -/
theorem not_isEmpty_of_two {α : Type} (l : List α) (h2 : 2 ≤ l.length) :
    (!l.isEmpty) = true := by
  cases l with
  | nil => simp at h2
  | cons a t => simp

/-- A successful arc-based TopoJSON branch is non-empty. -/
theorem topoArcB_ok (gt : Str) (arcIdx arcs : JValue) (g : Geometry)
    (h : topoArcB gt arcIdx arcs = .ok (some g)) : g.ok = true := by
  unfold topoArcB at h
  simp only [Except.instMonad, Except.bind, Except.pure, pure] at h
  repeat' split at h
  all_goals simp_all [Except.pure, pure]
  all_goals (try (subst h))
  all_goals simp only [Geometry.ok]
  all_goals (try simp_all)
  all_goals (exact ne_nil_of_two _ (by assumption))

/-- Every geometry successfully produced by the TopoJSON object resolver is
non-empty. -/
theorem resolveTopoF_ok : ∀ (n : Nat) (obj arcs : JValue) (g : Geometry),
    resolveTopoF n obj arcs = .ok (some g) → g.ok = true := by
  intro n
  induction n with
  | zero => intro obj arcs g h; simp [resolveTopoF] at h
  | succ n ih =>
    intro obj arcs g h
    cases obj with
    | jobj kvs =>
      rw [resolveTopoF] at h
      split at h
      · dsimp only at h
        repeat' split at h
        all_goals (try (exact geoPointB_ok _ _ h))
        all_goals (try (exact geoMultipointB_ok _ _ h))
        all_goals (try (exact topoArcB_ok _ _ _ _ h))
        all_goals (try (simp [pure, Except.pure] at h))
        -- remaining: the geometrycollection branch
        simp only [Except.instMonad, Except.bind, Except.pure, pure] at h
        split at h
        · simp at h
        · rename_i members hmembers
          split at h
          · simp at h
          · rename_i mres hloop
            split at h
            · simp at h
            · rename_i g0 rest2 hfk
              have hg : rest2.foldl Geometry.union g0 = g := by
                have h2 : Except.ok (ε := ErrKind) (some (rest2.foldl Geometry.union g0))
                    = .ok (some g) := h
                cases h2
                rfl
              have hmem : some g0 ∈ mres := by
                have hin : g0 ∈ mres.filterMap id := by
                  rw [hfk]; exact List.mem_cons_self _ _
                rcases List.mem_filterMap.mp hin with ⟨o, ho, hid⟩
                cases o with
                | none => cases hid
                | some gg => cases hid; exact ho
              have hmapM : members.mapM (fun gv => resolveTopoF n gv arcs) = .ok mres := hloop
              rcases mapM_ok_mem _ members mres hmapM (some g0) hmem with ⟨x, hx, hfx⟩
              rw [← hg]
              exact okFold rest2 g0 (ih x arcs g0 hfx)
      · simp at h
    | jnull => simp [resolveTopoF] at h
    | jbool b => simp [resolveTopoF] at h
    | jint m => simp [resolveTopoF] at h
    | jnum q => simp [resolveTopoF] at h
    | jstr s => simp [resolveTopoF] at h
    | jarr xs => simp [resolveTopoF] at h

/-- A successful WKT decode is non-empty. -/
theorem parse_wkt_ok (L : Libs) (v : Str) (g : Geometry)
    (h : parse_wkt L v = some g) : g.ok = true := by
  unfold parse_wkt at h
  repeat' split at h
  all_goals simp_all [Geometry.ok]
  all_goals (obtain ⟨⟨h1, h2⟩, hg⟩ := h; subst hg; simp [Geometry.ok, h1, h2])

/-- A successful WKB decode is non-empty. -/
theorem parse_wkb_ok (L : Libs) (v : Str) (g : Geometry)
    (h : parse_wkb L v = some g) : g.ok = true := by
  unfold parse_wkb at h
  repeat' split at h
  all_goals simp_all [Geometry.ok]
  all_goals (obtain ⟨⟨h1, h2⟩, hg⟩ := h; subst hg; simp [Geometry.ok, h1, h2])

/-- A successful EWKB decode is non-empty. -/
theorem parse_ewkb_ok (L : Libs) (v : Str) (g : Geometry)
    (h : parse_ewkb L v = some g) : g.ok = true :=
  parse_wkb_ok L v g h

/-- A successful EWKT decode is non-empty. -/
theorem parse_ewkt_ok (L : Libs) (v : Str) (g : Geometry)
    (h : parse_ewkt L v = some g) : g.ok = true := by
  unfold parse_ewkt at h
  split at h
  · exact parse_wkt_ok _ _ _ h
  · simp at h

/-- A successful KML decode is non-empty. -/
theorem parse_kml_ok (L : Libs) (v : Str) (g : Geometry)
    (h : parse_kml L v = some g) : g.ok = true := by
  unfold parse_kml at h
  dsimp only at h
  repeat' split at h
  all_goals (try (exact Option.noConfusion h))
  all_goals (injection h with h; subst h)
  all_goals simp only [Geometry.ok]
  all_goals (try rfl)
  all_goals rename_i hguard
  all_goals (try simp only [Bool.and_eq_true, decide_eq_true_eq] at hguard)
  all_goals (first
    | exact not_isEmpty_of_two _ hguard.right
    | exact not_isEmpty_of_two _ hguard)

/-- A successful GeoJSON decode is non-empty. -/
theorem geojsonDecode_ok (L : Libs) (s : Str) (g : Geometry)
    (h : geojsonDecode L s = .ok (some g)) : g.ok = true := by
  unfold geojsonDecode at h
  split at h
  · simp at h
  · exact geojsonCoreF_ok _ _ _ h

/-- A successful Earth Engine dispatch is non-empty. -/
theorem eeDispatch_ok (gt : Str) (coords : JValue) (g : Geometry)
    (h : eeDispatch gt coords = .ok (some g)) : g.ok = true := by
  unfold eeDispatch at h
  simp only [Except.instMonad, Except.bind, Except.pure, pure] at h
  repeat' split at h
  all_goals (try (exact geoPointB_ok _ _ h))
  all_goals (try (exact geoMultipointB_ok _ _ h))
  all_goals (try (exact geoLineB_ok _ _ h))
  all_goals (try (exact geoRingB_ok _ _ h))
  all_goals (try (exact geoPolygonB_ok _ _ h))
  all_goals (try (exact geoMultipolygonB_ok _ _ h))
  all_goals (try (exact eeRect_ok _ _ h))
  all_goals simp_all [Except.pure, pure]

/-- A successful Earth Engine decode is non-empty. -/
theorem parse_earth_engine_ok (L : Libs) (v : Str) (g : Geometry)
    (h : parse_earth_engine L v = .ok (some g)) : g.ok = true := by
  unfold parse_earth_engine at h
  split at h
  · split at h <;> simp at h
  · rename_i r heer
    have hr : eeTry L v = .ok (some g) := by
      rw [heer]
      simpa using h
    unfold eeTry at hr
    repeat' split at hr
    all_goals (try (exact eeDispatch_ok _ _ _ hr))
    all_goals (try (exact geojsonDecode_ok _ _ _ hr))
    all_goals simp_all

/-- A successful TopoJSON decode is non-empty. -/
theorem parse_topojson_ok (L : Libs) (v : Str) (g : Geometry)
    (h : parse_topojson L v = .ok (some g)) : g.ok = true := by
  unfold parse_topojson at h
  split at h
  · split at h <;> simp at h
  · rename_i r htt
    have hr : topoTry L v = .ok (some g) := by
      rw [htt]
      simpa using h
    unfold topoTry at hr
    simp only [Except.instMonad, Except.bind, Except.pure, pure] at hr
    repeat' split at hr
    all_goals (try (exact geojsonDecode_ok _ _ _ hr))
    all_goals (try (exact resolveTopoF_ok _ _ _ _ hr))
    all_goals simp_all [Except.pure, pure]

/-- C8: for every input and every format, when decode succeeds the returned
geometry is non-null and non-empty: every decode path that would yield zero
coordinates, zero rings or zero sub-geometries returns the failure signal
instead of an empty geometry. -/
theorem c8_decode_success_nonempty (L : Libs) (v : Str) (fmt : Fmt) (srid : Int)
    (x y : Option Rat) (g : Geometry) (h : parse L v fmt srid x y = some g) :
    g.ok = true := by
  unfold parse at h
  split at h
  · unfold parse_xy at h
    repeat' split at h
    all_goals simp_all [Geometry.ok]
    all_goals (subst h; rfl)
  · dsimp only at h
    split at h
    · simp at h
    · split at h
      · rename_i r hbody
        rw [h] at hbody
        cases fmt with
        | WKT =>
          have hw : parse_wkt L (pyStrip v) = some g := by simpa [parseBody] using hbody
          exact parse_wkt_ok _ _ _ hw
        | WKB =>
          have hw : parse_wkb L (pyStrip v) = some g := by simpa [parseBody] using hbody
          exact parse_wkb_ok _ _ _ hw
        | EWKT =>
          have hw : parse_ewkt L (pyStrip v) = some g := by simpa [parseBody] using hbody
          exact parse_ewkt_ok _ _ _ hw
        | EWKB =>
          have hw : parse_ewkb L (pyStrip v) = some g := by simpa [parseBody] using hbody
          exact parse_ewkb_ok _ _ _ hw
        | GEOJSON => exact geojsonDecode_ok _ _ _ (by simpa [parseBody] using hbody)
        | JSON => exact geojsonDecode_ok _ _ _ (by simpa [parseBody] using hbody)
        | KML =>
          have hw : parse_kml L (pyStrip v) = some g := by simpa [parseBody] using hbody
          exact parse_kml_ok _ _ _ hw
        | EARTH_ENGINE => exact parse_earth_engine_ok _ _ _ (by simpa [parseBody] using hbody)
        | TOPOJSON => exact parse_topojson_ok _ _ _ (by simpa [parseBody] using hbody)
        | XY => simp [parseBody] at hbody
        | UNKNOWN => simp [parseBody] at hbody
      · simp at h

/-- Witness for C8: decoding the XY pair (1,2) succeeds with a point, which is
non-empty. -/
theorem c8_decode_success_nonempty_witness :
    parse noLibs [] .XY 0 (some 1) (some 2) = some (.point 1 2)
    ∧ (Geometry.point 1 2).ok = true :=
  ⟨by decide, c8_decode_success_nonempty noLibs [] .XY 0 (some 1) (some 2) _ (by decide)⟩

/-- C10: for every value string, format tag and optional x/y arguments, the
result of parse does not depend on the srid argument: the parameter is never
consulted by any sub-decoder. -/
theorem c10_srid_independent (L : Libs) (v : Str) (fmt : Fmt) (x y : Option Rat)
    (srid1 srid2 : Int) :
    parse L v fmt srid1 x y = parse L v fmt srid2 x y := rfl

/-- C1: the code contradicts the claim. The C1 document is a well-formed
TopoJSON multipolygon: its single ring resolves through the arc table to a
3-point ring that survives the filter, as the first conjunct shows by
resolving the polygon level directly. Yet decoding the document returns a
failure (second conjunct): _resolve_arcs maps the triply-nested multipolygon
index structure to the empty list, because only int references inside a group
are resolved, so the guard on resolved_coords in the multipolygon branch of
_resolve_topojson_geometry is never satisfied. -/
theorem c1_multipolygon_decode_fails :
    resolve_arcs (.jarr [.jarr [.jint 0]]) topoArcsC1 = .ok [[(0, 0), (1, 0), (1, 1)]]
    ∧ parse libsC1 (strLit "t") .TOPOJSON 4326 none none = none :=
  ⟨by decide, by decide⟩

/-- C4: on the EWKT input SRID=4326;POINT(1 2) the regex match extracts the
SRID digits 4326 and the WKT part, but the decode result is only the bare WKT
geometry: the extracted SRID is discarded, not reported to the caller,
although the docstring and type annotation of _parse_ewkt declare a
(geometry, srid) pair. -/
theorem c4_ewkt_srid_discarded :
    ewktMatch (strLit "SRID=4326;POINT(1 2)") = some (strLit "4326", strLit "POINT(1 2)")
    ∧ parse libsWkt (strLit "SRID=4326;POINT(1 2)") .EWKT 0 none none = some (.lib okGeom)
    ∧ parse_wkt libsWkt (strLit "POINT(1 2)") = some (.lib okGeom) :=
  ⟨by decide, by decide, by decide⟩
